import Mathlib

/-!
Verification development for the pygnsslab RINEX-navigation core
(`io/rinexnav`: `reader.py`, `utils.py`, `example_usage.py`).

The Python sources are shallowly embedded:
* strings are `List Char`; Python `str` helpers (`strip`, slicing, `replace`,
  `split`) are modelled verbatim on character lists;
* Python `int(...)` / `float(...)` builtins are modelled as exact parsers
  to `ℤ` / `ℚ` over the decimal grammar of finite literals (no `inf`/`nan`
  names, no `_` digit separators — none of which occur in RINEX fields);
* `datetime` values are exact rational seconds relative to the GPS epoch
  1980-01-06T00:00:00 (Python's `datetime` is exact integer microseconds;
  the embedding keeps arithmetic exact instead of routing `total_seconds`
  through binary floating point);
* exceptions are `Except PyErr` / `Option`; a caught-and-defaulted
  exception is a total function;
* the numerical query layer (`interpolate_orbit`,
  `compute_sv_clock_correction`, `compute_dop_values`) is embedded over `ℝ`
  with `Real.sin`/`Real.cos`/`Real.sqrt`/`Real.arctan`, NaN cells of the
  parsed DataFrame being `Option ℝ` fields.
-/

namespace PyGnssLab

abbrev Chars := List Char

/-- Python `str.isspace` character class (ASCII white space). -/
def isPySpace (c : Char) : Bool :=
  c == ' ' || c == '\t' || c == '\n' || c == '\r' ||
  c == Char.ofNat 11 || c == Char.ofNat 12

/-- Python slice `l[a:b]` (clamping, as in Python). -/
def pySlice (l : Chars) (a b : Nat) : Chars := (l.take b).drop a

/-- Python slice `l[a:]`. -/
def pySliceFrom (l : Chars) (a : Nat) : Chars := l.drop a

/-- Python `str.lstrip()`. -/
def pyLstrip (l : Chars) : Chars := l.dropWhile isPySpace

/-- Python `str.rstrip()`. -/
def pyRstrip (l : Chars) : Chars := (l.reverse.dropWhile isPySpace).reverse

/-- Python `str.strip()`. -/
def pyStrip (l : Chars) : Chars := pyRstrip (pyLstrip l)

/-- Helper for `str.split(sep)` with a one-character separator. -/
def pySplitOnCharAux (sep : Char) : Chars → Chars → List Chars
  | [], acc => [acc.reverse]
  | c :: rest, acc =>
    if c == sep then acc.reverse :: pySplitOnCharAux sep rest []
    else pySplitOnCharAux sep rest (c :: acc)

/-- Python `str.split(sep)` for a one-character separator. -/
def pySplitOnChar (sep : Char) (l : Chars) : List Chars := pySplitOnCharAux sep l []

/-- Python `str.split('\n')`. -/
def pySplitNL (l : Chars) : List Chars := pySplitOnChar '\n' l

/-- Python substring test `sub in l`. -/
def hasSub (sub : Chars) (l : Chars) : Bool := l.tails.any (fun t => sub.isPrefixOf t)

/-- Python `str.replace(pat, rep)`, fuel-structured so that concrete
inputs reduce inside the kernel; each step consumes at least one input
character, so `l.length` fuel is always enough. -/
def pyReplaceFuel : ℕ → Chars → Chars → Chars → Chars
  | 0, l, _, _ => l
  | fuel + 1, l, pat, rep =>
    match l with
    | [] => []
    | c :: rest =>
      if !pat.isEmpty && pat.isPrefixOf (c :: rest) then
        rep ++ pyReplaceFuel fuel ((c :: rest).drop pat.length) pat rep
      else
        c :: pyReplaceFuel fuel rest pat rep

/-- Python `str.replace(pat, rep)` (left-to-right, non-overlapping). -/
def pyReplace (l pat rep : Chars) : Chars := pyReplaceFuel l.length l pat rep

/-- Uppercase every character (for the case-insensitive header regex). -/
def upperChars (l : Chars) : Chars := l.map Char.toUpper

/-- Numeric value of a digit string (most significant first). -/
def digitsToNat (l : Chars) : Nat :=
  l.foldl (fun n c => 10 * n + (c.toNat - '0'.toNat)) 0

/-- Consume one optional leading sign; returns (isNegative, rest). -/
def parseSign : Chars → Bool × Chars
  | '+' :: r => (false, r)
  | '-' :: r => (true, r)
  | l => (false, l)

/-- Model of Python `int(s)`: optional surrounding white space, optional
sign, one or more decimal digits; anything else raises (`none`). -/
def pyInt (l : Chars) : Option ℤ :=
  let s := pyStrip l
  let (neg, ds) := parseSign s
  if ds.isEmpty then none
  else if ds.all Char.isDigit then
    some (if neg then -(digitsToNat ds : ℤ) else (digitsToNat ds : ℤ))
  else none

def pow10 (n : ℕ) : ℕ := 10 ^ n

/-- Exponent tail of the Python float grammar: empty ↦ exponent 0,
`e`/`E` with signed digits ↦ its value, anything else fails. -/
def pyFloatExpZ : Chars → Option ℤ
  | [] => some 0
  | c :: r =>
    if c == 'e' || c == 'E' then
      let (neg, ds) := parseSign r
      if ds.isEmpty then none
      else if ds.all Char.isDigit then
        some (if neg then -(digitsToNat ds : ℤ) else (digitsToNat ds : ℤ))
      else none
    else none

/-- Significand of the Python float grammar: integer digits, fraction
digits and decimal exponent. -/
def pyFloatBody (s : Chars) : Option (Chars × Chars × ℤ) :=
  let ip := s.takeWhile Char.isDigit
  let rest := s.drop ip.length
  match rest with
  | '.' :: r2 =>
    let fp := r2.takeWhile Char.isDigit
    let rest2 := r2.drop fp.length
    if ip.isEmpty && fp.isEmpty then none
    else (pyFloatExpZ rest2).map (fun e => (ip, fp, e))
  | _ => if ip.isEmpty then none else (pyFloatExpZ rest).map (fun e => (ip, ([] : Chars), e))

/-- Exact value of a parsed decimal literal
`(-1)^neg * digits(ip).digits(fp) * 10^ex` (built with `Rat.divInt` so
that concrete inputs evaluate inside the kernel). -/
def decValue (neg : Bool) (ip fp : Chars) (ex : ℤ) : ℚ :=
  let m : ℤ := (digitsToNat (ip ++ fp) : ℤ)
  let sm := if neg then -m else m
  let e : ℤ := ex - fp.length
  if 0 ≤ e then Rat.divInt (sm * ((pow10 e.toNat : ℕ) : ℤ)) 1
  else Rat.divInt sm ((pow10 (-e).toNat : ℕ) : ℤ)

/-- Model of Python `float(s)` on finite decimal literals: optional
surrounding white space, optional sign, `digits[.digits]` or `.digits`,
optional `e`/`E` exponent. Unparseable input raises (`none`). -/
def pyFloat (l : Chars) : Option ℚ :=
  let s := pyStrip l
  let (neg, body) := parseSign s
  (pyFloatBody body).map (fun t => decValue neg t.1 t.2.1 t.2.2)

/-- `q * 10 ^ e` in exact arithmetic (the `mantissa * (10 ** exponent)`
of reader.py 345), again via `Rat.divInt`. -/
def ratScale10 (q : ℚ) (e : ℤ) : ℚ :=
  if 0 ≤ e then Rat.divInt (q.num * ((pow10 e.toNat : ℕ) : ℤ)) q.den
  else Rat.divInt q.num ((q.den * pow10 (-e).toNat : ℕ) : ℤ)

/-- Python `int()` applied to a float value: truncation toward zero. -/
def pyTrunc (q : ℚ) : ℤ := if 0 ≤ q then ⌊q⌋ else -⌊-q⌋

/-- Exact value of `int((q - int(q)) * 1e6)`, the microsecond extraction
used when building record epochs (reader.py 177, 570); written with
`Rat.divInt` so concrete inputs evaluate inside the kernel:
`(q - trunc q) * 10^6 = ((num - trunc q * den) * 10^6) / den`. -/
def fracMicro (q : ℚ) : ℤ :=
  pyTrunc (Rat.divInt ((q.num - pyTrunc q * q.den) * 1000000) (q.den : ℤ))

/-! ### Calendar model of Python `datetime`

A `datetime` is embedded as exact rational seconds relative to the GPS
epoch `datetime(1980, 1, 6)`; the constructor validates its arguments
exactly as Python does (proleptic Gregorian calendar, years 1–9999). -/

/-- Gregorian leap-year test. -/
def isLeap (y : ℤ) : Bool := (y % 4 == 0 && y % 100 != 0) || y % 400 == 0

/-- Days in a month of the proleptic Gregorian calendar. -/
def daysInMonth (y m : ℤ) : ℤ :=
  if m = 1 ∨ m = 3 ∨ m = 5 ∨ m = 7 ∨ m = 8 ∨ m = 10 ∨ m = 12 then 31
  else if m = 2 then (if isLeap y then 29 else 28)
  else 30

/-- Cumulative days before month `m` in a common year. -/
def cumDaysBeforeMonth (m : ℤ) : ℤ :=
  if m ≤ 1 then 0 else if m = 2 then 31 else if m = 3 then 59
  else if m = 4 then 90 else if m = 5 then 120 else if m = 6 then 151
  else if m = 7 then 181 else if m = 8 then 212 else if m = 9 then 243
  else if m = 10 then 273 else if m = 11 then 304 else 334

/-- Proleptic-Gregorian ordinal day number of a (validated) date. -/
def dateOrdinal (y m d : ℤ) : ℤ :=
  365 * (y - 1) + (y - 1) / 4 - (y - 1) / 100 + (y - 1) / 400 +
    cumDaysBeforeMonth m + (if 2 < m ∧ isLeap y then 1 else 0) + d

/-- Ordinal of the GPS epoch 1980-01-06. -/
def gpsEpochOrdinal : ℤ := dateOrdinal 1980 1 6

/-- Model of `datetime(y, mo, d, h, mi, s, us)`: validates fields the way
Python does and yields exact seconds since the GPS epoch (`none` models
the `ValueError` Python raises on out-of-range fields). -/
def mkDatetime (y mo d h mi s us : ℤ) : Option ℚ :=
  if 1 ≤ y ∧ y ≤ 9999 ∧ 1 ≤ mo ∧ mo ≤ 12 ∧ 1 ≤ d ∧ d ≤ daysInMonth y mo ∧
     0 ≤ h ∧ h < 24 ∧ 0 ≤ mi ∧ mi < 60 ∧ 0 ≤ s ∧ s < 60 ∧
     0 ≤ us ∧ us < 1000000 then
    some (Rat.divInt
      (((dateOrdinal y mo d - gpsEpochOrdinal) * 86400 + h * 3600 + mi * 60 + s) * 1000000 + us)
      1000000)
  else none

/-! ### Exceptions -/

/-- Python exceptions observable through the embedded functions.
The spec's taxonomy maps `formatError` to `FormatError` and the
`valueError`s raised by the readers to their respective categories;
`overflowError` is the uncaught `OverflowError` of
`mantissa * (10 ** exponent)` (reader.py 345) and `keyError` the uncaught
`KeyError` of a `'PRN'` column access on a column-less empty DataFrame
(example_usage.py 303, 317). -/
inductive PyErr
  | formatError
  | valueError
  | indexError
  | unsupportedVersion
  | overflowError
  | keyError
deriving Repr, DecidableEq

instance {ε α : Type} [DecidableEq ε] [DecidableEq α] : DecidableEq (Except ε α) :=
  fun a b =>
    match a, b with
    | .error e, .error f =>
      if h : e = f then isTrue (by rw [h]) else isFalse (fun c => by cases c; exact h rfl)
    | .error _, .ok _ => isFalse (fun c => by cases c)
    | .ok _, .error _ => isFalse (fun c => by cases c)
    | .ok x, .ok y =>
      if h : x = y then isTrue (by rw [h]) else isFalse (fun c => by cases c; exact h rfl)

/-- `Option`-to-`Except` for an unprotected Python call that raises
`ValueError` on failure. -/
def orRaise {α : Type} (o : Option α) : Except PyErr α :=
  match o with
  | some a => .ok a
  | none => .error .valueError

/-! ### `Rinex2NavReader._parse_rinex_float` (reader.py 278-370)

The return value is `Option ℚ`: `some q` for a finite float, `none` for the
`np.nan` missing sentinel. Each fallback strategy of the source is a
separate definition, composed in the source's order. -/

/-- Strategy: `float(v.replace('D', 'E'))` guarded by `'D+' in v or 'D-' in v`
(reader.py 311-316); a parse failure falls through (`none`). -/
def stratDSign (v : Chars) : Option ℚ :=
  if hasSub ['D', '+'] v || hasSub ['D', '-'] v then pyFloat (pyReplace v ['D'] ['E'])
  else none

/-- Strategy: `float(v.replace('D ', 'D').replace('D', 'E'))` guarded by
`'D ' in v` (reader.py 320-328). -/
def stratDSpace (v : Chars) : Option ℚ :=
  if hasSub ['D', ' '] v then
    pyFloat (pyReplace (pyReplace v ['D', ' '] ['D']) ['D'] ['E'])
  else none

/-- Model of `re.match(r'^([+-]?\d+)', s)` (reader.py 342): a signed digit
run at the start of the string. -/
def matchSignedIntStart (l : Chars) : Option ℤ :=
  let (neg, r) := parseSign l
  let ds := r.takeWhile Char.isDigit
  if ds.isEmpty then none
  else some (if neg then -(digitsToNat ds : ℤ) else (digitsToNat ds : ℤ))

/-- Strategy: split on `'D'`, parse the mantissa with `float` and the
exponent with the `^([+-]?\d+)` regex, combine as `mantissa * 10 ** exp`
(reader.py 332-347). The surrounding `except` clause (reader.py 346)
catches only `ValueError`/`IndexError`: when the exponent is at least
309, the Python int `10 ** exponent` exceeds the binary64 range and its
conversion inside the multiplication raises an *uncaught*
`OverflowError` (`.error .overflowError`; for every smaller exponent the
product is finite — a negative power is computed as a float and merely
underflows). `.ok none` is a failed strategy (fall through). -/
def stratSplitD (v : Chars) : Except PyErr (Option ℚ) :=
  match pySplitOnChar 'D' v with
  | p0 :: p1 :: _ =>
    match pyFloat p0 with
    | none => .ok none
    | some mant =>
      match matchSignedIntStart (pyStrip p1) with
      | none => .ok none
      | some e =>
        if 309 ≤ e then .error .overflowError
        else .ok (some (ratScale10 mant e))
  | _ => .ok none

/-- Strategy: `float(v.replace('D', 'E').replace(' ', ''))` (reader.py 351-356). -/
def stratStripSpaces (v : Chars) : Option ℚ :=
  pyFloat ((pyReplace v ['D'] ['E']).filter (fun c => c != ' '))

/-- Trailing exponent part of the number-token regex
`(?:[eEdD][-+]?\d+)?`: the matched characters (possibly `[]`). -/
def expTokenPart (l : Chars) : Chars :=
  match l with
  | [] => []
  | c :: rest =>
    if c == 'e' || c == 'E' || c == 'd' || c == 'D' then
      let (sc, r2) :=
        match rest with
        | '+' :: rr => (['+'], rr)
        | '-' :: rr => (['-'], rr)
        | _ => (([] : Chars), rest)
      let ds := r2.takeWhile Char.isDigit
      if ds.isEmpty then [] else c :: (sc ++ ds)
    else []

/-- One attempted match of
`[-+]?(?:\d+(?:\.\d*)?|\.\d+)(?:[eEdD][-+]?\d+)?` at the head of `l`. -/
def matchNumToken (l : Chars) : Option Chars :=
  let (sgn, r1) :=
    match l with
    | '+' :: r => (['+'], r)
    | '-' :: r => (['-'], r)
    | _ => (([] : Chars), l)
  let ds := r1.takeWhile Char.isDigit
  if !ds.isEmpty then
    let r2 := r1.drop ds.length
    let (frac, r3) :=
      match r2 with
      | '.' :: rr =>
        let fs := rr.takeWhile Char.isDigit
        ('.' :: fs, rr.drop fs.length)
      | _ => (([] : Chars), r2)
    some (sgn ++ ds ++ frac ++ expTokenPart r3)
  else
    match r1 with
    | '.' :: rr =>
      let fs := rr.takeWhile Char.isDigit
      if fs.isEmpty then none
      else some (sgn ++ '.' :: (fs ++ expTokenPart (rr.drop fs.length)))
    | _ => none

/-- First (leftmost) match of the number-token regex, as produced by
`re.findall(...)[0]` (reader.py 362-363). -/
def findNumToken : Chars → Option Chars
  | [] => none
  | l@(_ :: rest) =>
    match matchNumToken l with
    | some t => some t
    | none => findNumToken rest

/-- Strategy: regex-extract the first number-like token and parse it with
`D` replaced by `E` (reader.py 359-365). -/
def stratRegexToken (v : Chars) : Option ℚ :=
  match findNumToken v with
  | some t => pyFloat (pyReplace t ['D'] ['E'])
  | none => none

/-- `Rinex2NavReader._parse_rinex_float` (reader.py 278-370).
`.ok (some 0)` for empty/whitespace input (lines 294-296); then the
stripped value is tried against `float`, the three `D`-notation
strategies (guarded by `'D' in v`), the space-stripping strategy and the
regex strategy in source order; if every strategy fails the result is the
NaN sentinel `.ok none` (line 370). The split-on-`D` strategy can raise
an uncaught `OverflowError` (see `stratSplitD`), which aborts the call
(`.error`). -/
def parseRinexFloat (s : Chars) : Except PyErr (Option ℚ) :=
  if s.all isPySpace then .ok (some 0)
  else
    let v := pyStrip s
    match pyFloat v with
    | some x => .ok (some x)
    | none =>
      let afterD : Except PyErr (Option ℚ) :=
        if v.contains 'D' then
          match stratDSign v with
          | some x => .ok (some x)
          | none =>
            match stratDSpace v with
            | some x => .ok (some x)
            | none => stratSplitD v
        else .ok none
      match afterD with
      | .error e => .error e
      | .ok (some x) => .ok (some x)
      | .ok none =>
        match stratStripSpaces v with
        | some x => .ok (some x)
        | none => .ok (stratRegexToken v)

/-! ### `Rinex2NavReader._parse_data` (reader.py 127-276)

A v2 record is the first-line epoch/clock data plus up to 26 positional
orbital parameters; the Python code assigns `param_names[param_index]`
strictly in order, so the parameter dict is equivalent to the list of
assigned values in order (missing keys and NaN values behave identically
at every downstream use: `param not in row or pd.isna(row[param])`). -/

structure NavRec2 where
  PRN : ℤ
  /-- `Epoch`/`Toc` (both set to the same datetime, reader.py 182-183). -/
  Epoch : ℚ
  svClockBias : Option ℚ
  svClockDrift : Option ℚ
  svClockDriftRate : Option ℚ
  /-- The 26 positional orbital parameters `IODE, Crs, ..., Fit_interval`
  in the order of `param_names` (reader.py 190-198); a short list leaves
  trailing names unassigned. -/
  params : List (Option ℚ)
deriving Repr, DecidableEq

/-- One fixed-column field of a v2 continuation line (reader.py 229-253):
out-of-range or empty fields become the NaN sentinel; the field parse can
raise (uncaught `OverflowError` of `_parse_rinex_float`; the per-field
`except` at reader.py 244 catches only `ValueError`). -/
def fieldVal2 (line : Chars) (s e : Nat) : Except PyErr (Option ℚ) :=
  if s < line.length then
    let f := pyStrip (pySlice line s (min e line.length))
    if f.isEmpty then .ok none else parseRinexFloat f
  else .ok none

/-- The fixed columns of a v2 continuation line
(`column_starts = [3, 22, 41, 60]`, `column_ends = [22, 41, 60, 79]`). -/
def colBounds2 : List (Nat × Nat) := [(3, 22), (22, 41), (41, 60), (60, 79)]

/-- The first `k` (at most 4) fields of a v2 continuation line, in column
order; fields beyond the 26-parameter limit are never parsed
(reader.py 218-220 breaks before touching them). -/
def lineParams2 (line : Chars) (k : Nat) : Except PyErr (List (Option ℚ)) :=
  (colBounds2.take k).mapM (fun p => fieldVal2 line p.1 p.2)

/-- Collect orbital parameters from up to 7 continuation lines
(reader.py 205-253): empty lines are skipped without advancing
`param_index`, at most 26 parameters are assigned, and a raising field
parse aborts the collection. -/
def collectParams2 (contLines : List Chars) : Except PyErr (List (Option ℚ)) :=
  contLines.foldlM
    (fun acc l =>
      let line := pyRstrip l
      if line.isEmpty then .ok acc
      else
        match lineParams2 line (26 - acc.length) with
        | .error e => .error e
        | .ok ps => .ok (acc ++ ps))
    []

/-- Parse one v2 record given its (rstripped) first line and the following
(up to 7) raw lines, with every Python exception explicit. -/
def parseRecord2E (line : Chars) (contLines : List Chars) : Except PyErr NavRec2 := do
  let prn ← orRaise (pyInt (pySlice line 0 2))
  let yy ← orRaise (pyInt (pySlice line 3 5))
  let year := if yy ≥ 80 then yy + 1900 else yy + 2000
  let month ← orRaise (pyInt (pySlice line 6 8))
  let day ← orRaise (pyInt (pySlice line 9 11))
  let hour ← orRaise (pyInt (pySlice line 12 14))
  let minute ← orRaise (pyInt (pySlice line 15 17))
  let second ← orRaise (pyFloat (pySlice line 17 22))
  let bias ← parseRinexFloat (pySlice line 22 41)
  let drift ← parseRinexFloat (pySlice line 41 60)
  let driftRate ← parseRinexFloat (pySlice line 60 79)
  let epoch ← orRaise (mkDatetime year month day hour minute (pyTrunc second)
                (fracMicro second))
  let params ← collectParams2 contLines
  .ok { PRN := prn, Epoch := epoch, svClockBias := bias, svClockDrift := drift,
        svClockDriftRate := driftRate, params := params }

/-- The record-level `except Exception` (reader.py 265-267): *every*
exception raised while processing a v2 record — including the
`OverflowError` a field parse can produce — is swallowed and the record
skipped. -/
def parseRecord2 (line : Chars) (contLines : List Chars) : Option NavRec2 :=
  (parseRecord2E line contLines).toOption

/-- The v2 data-section `while` loop (reader.py 142-270): empty lines are
skipped one at a time, a failed record is dropped, and the cursor always
advances 8 lines past a record's first line. Fuel-structured (each step
consumes at least one line, so the line count is always enough fuel). -/
def parse2Loop : ℕ → List Chars → List NavRec2
  | 0, _ => []
  | fuel + 1, lines =>
    match lines with
    | [] => []
    | l :: rest =>
      let line := pyRstrip l
      if line.isEmpty then parse2Loop fuel rest
      else
        match parseRecord2 line (rest.take 7) with
        | some r => r :: parse2Loop fuel (rest.drop 7)
        | none => parse2Loop fuel (rest.drop 7)

/-- `Rinex2NavReader._parse_data`: the `'G'` DataFrame of a v2 file is the
list of successfully parsed records in file order (reader.py 272-276). -/
def rinex2ParseData (dataContent : Chars) : List NavRec2 :=
  let lines := pySplitNL (pyStrip dataContent)
  parse2Loop lines.length lines

/-! ### The v2/v3 header parsers -/

/-- File-type extraction from the first header line (reader.py 98-108 and
393-403). -/
def fileTypeOf (firstLine : Chars) : Chars :=
  if hasSub ['N', ':'] firstLine then ['N']
  else if !(pyStrip (pySlice firstLine 20 21)).isEmpty then pyStrip (pySlice firstLine 20 21)
  else ['N']

structure Header2 where
  version : ℚ
  fileType : Chars
  program : Option Chars
  runBy : Option Chars
  created : Option Chars
  comments : List Chars
deriving Repr, DecidableEq

/-- `Rinex2NavReader._parse_header` (reader.py 83-125); the only failing
operation is `float(first_line[:9].strip())`. -/
def parseHeader2 (headerContent : Chars) : Option Header2 :=
  match pySplitNL (pyStrip headerContent) with
  | [] => none
  | first :: rest =>
    match pyFloat (pySlice first 0 9) with
    | none => none
    | some ver =>
      some (rest.foldl
        (fun acc l =>
          let lbl := pyStrip (pySliceFrom l 60)
          if hasSub ("PGM / RUN BY / DATE".data) lbl then
            { acc with program := some (pyStrip (pySlice l 0 20)),
                       runBy := some (pyStrip (pySlice l 20 40)),
                       created := some (pyStrip (pySlice l 40 60)) }
          else if hasSub ("COMMENT".data) lbl then
            { acc with comments := acc.comments ++ [pyStrip (pySlice l 0 60)] }
          else acc)
        { version := ver, fileType := fileTypeOf first, program := none,
          runBy := none, created := none, comments := [] })

structure Header3 where
  version : ℚ
  fileType : Chars
  fileTypeFull : Chars
  program : Option Chars
  runBy : Option Chars
  created : Option Chars
  comments : List Chars
  /-- `IONOSPHERIC CORR` entries in file order (Python stores them in a
  dict keyed by the 4-char correction type; later duplicates overwrite,
  which no claim touches — the embedding keeps entries in order). -/
  ionoCorr : List (Chars × List ℚ)
  /-- `TIME SYSTEM CORR` entries `(a0, a1, ref_time, ref_week)`. -/
  timeSysCorr : List (Chars × (ℚ × ℚ × ℤ × ℤ))
  leapSeconds : Option ℤ
deriving Repr, DecidableEq

/-- The four ionospheric-correction fields (reader.py 426-444): every
failure path nets to the default `0.0` (the retry inside the
`except ValueError` handler re-raises into the outer
`except Exception` which sets `0.0`). -/
def ionoVals (l : Chars) : List ℚ :=
  [(5, 14), (14, 23), (23, 32), (32, 41)].map
    (fun se =>
      let vs := pyReplace (pyStrip (pySlice l se.1 se.2)) ['D'] ['E']
      if vs.isEmpty then 0 else (pyFloat vs).getD 0)

/-- A `TIME SYSTEM CORR` line's values (reader.py 452-479); each field
defaults on failure. -/
def timeSysVal (l : Chars) : ℚ × ℚ × ℤ × ℤ :=
  ((pyFloat (pyReplace (pyStrip (pySlice l 5 24)) ['D'] ['E'])).getD 0,
   (pyFloat (pyReplace (pyStrip (pySlice l 24 43)) ['D'] ['E'])).getD 0,
   (pyInt (pySlice l 43 51)).getD 0,
   (pyInt (pySlice l 51 60)).getD 0)

/-- `Rinex3NavReader._parse_header` (reader.py 378-482). The unprotected
calls are `float(first_line[:9].strip())` and, on a `LEAP SECONDS` line,
`int(line[:6].strip())`. -/
def parseHeader3 (headerContent : Chars) : Except PyErr Header3 :=
  match pySplitNL (pyStrip headerContent) with
  | [] => .error .indexError
  | first :: rest =>
    match pyFloat (pySlice first 0 9) with
    | none => .error .valueError
    | some ver =>
      rest.foldlM
        (fun acc l =>
          let lbl := pyStrip (pySliceFrom l 60)
          if hasSub ("PGM / RUN BY / DATE".data) lbl then
            .ok { acc with program := some (pyStrip (pySlice l 0 20)),
                           runBy := some (pyStrip (pySlice l 20 40)),
                           created := some (pyStrip (pySlice l 40 60)) }
          else if hasSub ("COMMENT".data) lbl then
            .ok { acc with comments := acc.comments ++ [pyStrip (pySlice l 0 60)] }
          else if hasSub ("IONOSPHERIC CORR".data) lbl then
            .ok { acc with ionoCorr := acc.ionoCorr ++ [(pyStrip (pySlice l 0 4), ionoVals l)] }
          else if hasSub ("TIME SYSTEM CORR".data) lbl then
            .ok { acc with timeSysCorr := acc.timeSysCorr ++ [(pyStrip (pySlice l 0 4), timeSysVal l)] }
          else if hasSub ("LEAP SECONDS".data) lbl then
            match pyInt (pySlice l 0 6) with
            | none => .error .valueError
            | some n => .ok { acc with leapSeconds := some n }
          else .ok acc)
        { version := ver, fileType := fileTypeOf first,
          fileTypeFull := pyStrip (pySlice first 20 40), program := none,
          runBy := none, created := none, comments := [], ionoCorr := [],
          timeSysCorr := [], leapSeconds := none }

/-! ### `Rinex3NavReader._parse_data` (reader.py 484-697)

Per-system field naming (reader.py 583-682) is a positional renaming of
the collected parameter list; the embedding stores the positional list. -/

structure NavRec3 where
  satSystem : Char
  PRN : ℤ
  Epoch : ℚ
  svClockBias : ℚ
  svClockDrift : ℚ
  svClockDriftRate : ℚ
  /-- Positional orbital parameters as collected (reader.py 546-566). -/
  params : List (Option ℚ)
deriving Repr, DecidableEq

/-- `parse_sci_notation` (reader.py 518-525): replace `D` with `E`, drop a
trailing sign when the exponent marker is already present, then `float`
(which may raise → `none`). -/
def pySciNote (raw : Chars) : Option ℚ :=
  let v := pyReplace raw ['D'] ['E']
  let v2 :=
    if v.getLast? == some '-' && hasSub ['E', '-'] v then v.dropLast
    else if v.getLast? == some '+' && hasSub ['E', '+'] v then v.dropLast
    else v
  pyFloat v2

/-- One field of a v3 continuation line (reader.py 553-566): the outer
`none` means the field is never appended (start or end out of range);
`some none` is an appended NaN. -/
def fieldVal3 (l : Chars) (k : Nat) : Option (Option ℚ) :=
  let s := k * 19 + 4
  if s < l.length ∧ s + 19 ≤ l.length then
    let p := pyStrip (pySlice l s (s + 19))
    if p.isEmpty then some none else some (pySciNote p)
  else none

/-- Collect the orbital parameters of a v3 record from its continuation
lines (reader.py 546-566); blank lines are skipped. -/
def collectParams3 (contLines : List Chars) : List (Option ℚ) :=
  contLines.foldl
    (fun acc l =>
      if (pyStrip l).isEmpty then acc
      else acc ++ (List.range 4).filterMap (fieldVal3 l))
    []

/-- Number of lines of a v3 record (reader.py 538-544): GLONASS/SBAS 4,
every other system 8. -/
def numLines3 (sys : Char) : Nat := if sys = 'R' ∨ sys = 'S' then 4 else 8

/-- Parse one v3 record from its raw first line and following raw lines.
Unlike the v2 parser there is no record-level `try`: a malformed PRN,
epoch field or out-of-range date raises and aborts the whole parse
(reader.py 506-515, 569-570). Only the clock-field parse is protected
(reader.py 527-535, defaulting all three to `0.0`). -/
def parseRecord3 (line : Chars) (contLines : List Chars) : Except PyErr NavRec3 := do
  let satId := pyStrip (pySlice line 0 3)
  match satId with
  | [] => .error .indexError
  | sysC :: _ => do
    let prn ← orRaise (pyInt (pySlice satId 1 3))
    let year ← orRaise (pyInt (pySlice line 4 8))
    let month ← orRaise (pyInt (pySlice line 9 11))
    let day ← orRaise (pyInt (pySlice line 12 14))
    let hour ← orRaise (pyInt (pySlice line 15 17))
    let minute ← orRaise (pyInt (pySlice line 18 20))
    let second ← orRaise (pyFloat (pySlice line 21 23))
    let clk : Option (ℚ × ℚ × ℚ) := do
      let b ← pySciNote (pyStrip (pySlice line 23 42))
      let d ← pySciNote (pyStrip (pySlice line 42 61))
      let r ← pySciNote (pyStrip (pySlice line 61 80))
      some (b, d, r)
    let (bias, drift, driftRate) := clk.getD (0, 0, 0)
    let epoch ← orRaise (mkDatetime year month day hour minute (pyTrunc second)
                  (fracMicro second))
    .ok { satSystem := sysC, PRN := prn, Epoch := epoch, svClockBias := bias,
          svClockDrift := drift, svClockDriftRate := driftRate,
          params := collectParams3 contLines }

/-- The v3 data-section `while` loop (reader.py 498-690), fuel-structured.
-/
def parse3Loop : ℕ → List Chars → Except PyErr (List NavRec3)
  | 0, _ => .ok []
  | fuel + 1, lines =>
    match lines with
    | [] => .ok []
    | l :: rest =>
      if (pyStrip l).isEmpty then parse3Loop fuel rest
      else
        match pyStrip (pySlice l 0 3) with
        | [] => .error .indexError
        | sysC :: _ =>
          let n := numLines3 sysC
          match parseRecord3 l (rest.take (n - 1)) with
          | .error e => .error e
          | .ok r =>
            match parse3Loop fuel (rest.drop (n - 1)) with
            | .error e => .error e
            | .ok rs => .ok (r :: rs)

/-- `Rinex3NavReader._parse_data`: records in file order (the per-system
DataFrames of reader.py 692-697 are the sublists of equal `satSystem`,
in the same order — no reordering happens). -/
def rinex3ParseData (dataContent : Chars) : Except PyErr (List NavRec3) :=
  let lines := pySplitNL (pyStrip dataContent)
  parse3Loop lines.length lines

/-! ### `RinexNavReader._read_file` and `read_rinex_nav` (reader.py 36-53, 700-735) -/

/-- Lines of the file, keeping the `'\n'` terminators. -/
def linesKeepNLAux : Chars → Chars → List Chars
  | [], acc => if acc.isEmpty then [] else [acc.reverse]
  | c :: r, acc =>
    if c == '\n' then (acc.reverse ++ ['\n']) :: linesKeepNLAux r []
    else linesKeepNLAux r (c :: acc)

def linesKeepNL (l : Chars) : List Chars := linesKeepNLAux l []

/-- The `END OF HEADER` split (reader.py 42-47): the regex
`.*END OF HEADER.*\n` (IGNORECASE) matches the first newline-terminated
line containing the marker; header is everything through that line,
data is the rest. `none` models the fatal `ValueError` of line 53. -/
def splitEOHAux : List Chars → Chars → Option (Chars × Chars)
  | [], _ => none
  | chunk :: rest, acc =>
    if hasSub ("END OF HEADER".data) (upperChars chunk) && chunk.contains '\n' then
      some (acc ++ chunk, rest.flatten)
    else splitEOHAux rest (acc ++ chunk)

def splitEOH (content : Chars) : Option (Chars × Chars) :=
  splitEOHAux (linesKeepNL content) []

/-- Full `Rinex2NavReader` construction on file contents. -/
def rinex2Read (content : Chars) : Except PyErr (Header2 × List NavRec2) :=
  match splitEOH content with
  | none => .error .formatError
  | some (hdr, dat) =>
    match parseHeader2 hdr with
    | none => .error .valueError
    | some h => .ok (h, rinex2ParseData dat)

/-- Full `Rinex3NavReader` construction on file contents. -/
def rinex3Read (content : Chars) : Except PyErr (Header3 × List NavRec3) :=
  match splitEOH content with
  | none => .error .formatError
  | some (hdr, dat) => do
    let h ← parseHeader3 hdr
    let recs ← rinex3ParseData dat
    .ok (h, recs)

inductive RinexReader
  | v2 (h : Header2) (recs : List NavRec2)
  | v3 (h : Header3) (recs : List NavRec3)
deriving Repr, DecidableEq

/-- `f.readline()`: the first line including its `'\n'` if present. -/
def readline (content : Chars) : Chars :=
  let l := content.takeWhile (fun c => c != '\n')
  if l.length < content.length then l ++ ['\n'] else l

/-- The version field read by `read_rinex_nav` (reader.py 720-725):
`float(first_line[:9].strip())`. -/
def versionOf (content : Chars) : Option ℚ :=
  pyFloat (pySlice (readline content) 0 9)

/-- `read_rinex_nav` (reader.py 700-735): version dispatch. A non-numeric
version field raises before any reader is constructed
(`formatError`, "Cannot determine RINEX version"); `2.0 <= v < 3.0`
builds a `Rinex2NavReader`, `v >= 3.0` a `Rinex3NavReader`, anything
lower raises "Unsupported RINEX version". -/
def readRinexNav (content : Chars) : Except PyErr RinexReader :=
  match versionOf content with
  | none => .error .formatError
  | some v =>
    if 2 ≤ v ∧ v < 3 then (rinex2Read content).map (fun p => .v2 p.1 p.2)
    else if 3 ≤ v then (rinex3Read content).map (fun p => .v3 p.1 p.2)
    else .error .unsupportedVersion

/-! ### GPS time conversions (utils.py 12-58) -/

/-- `gps_time_to_datetime` (utils.py 12-30):
`gps_epoch + timedelta(weeks=week, seconds=seconds)`, in exact seconds
relative to the GPS epoch. -/
def gpsTimeToDatetime (week : ℤ) (seconds : ℚ) : ℚ := 604800 * week + seconds

/-- Python's `%` on numbers: sign follows the divisor (floor-based). -/
def pyModQ (a b : ℚ) : ℚ := a - b * ⌊a / b⌋

/-! #### Binary64 rounding of `timedelta.total_seconds()`

`delta.total_seconds()` (utils.py 50) is computed by CPython as one true
division of the total microsecond count by `10^6` — an `int / int`
division whose result is the binary64 double nearest the exact quotient
(round to nearest, ties to even). The model below computes that double
as an exact rational, for inputs in the normal binary64 range (the
reachable magnitudes — at most ~10^12 seconds for model datetimes — are
far from both overflow and subnormal territory). -/

/-- Round the nonnegative rational `a / b` to the nearest integer, ties
to even (the rounding used by binary64 arithmetic). -/
def rhe (a b : ℕ) : ℕ :=
  let q := a / b
  let r := a % b
  if 2 * r < b then q
  else if b < 2 * r then q + 1
  else if q % 2 = 0 then q else q + 1

/-- Scale `a / b` by powers of two until the quotient lies in
`[2^52, 2^53)`, tracking the binary exponent; fuel-bounded (2200 steps
cover the whole binary64 exponent range). -/
def flScale : ℕ → ℕ → ℕ → ℤ → ℕ × ℕ × ℤ
  | 0, a, b, e => (a, b, e)
  | f + 1, a, b, e =>
    if a < 2 ^ 52 * b then flScale f (2 * a) b (e - 1)
    else if 2 ^ 53 * b ≤ a then flScale f a (2 * b) (e + 1)
    else (a, b, e)

/-- The binary64 double nearest the positive rational `a / b`, as an
exact rational: scale into `[2^52, 2^53)`, round the 53-bit significand
to nearest/ties-even, undo the scaling. -/
def flRat (a b : ℕ) : ℚ :=
  if a = 0 then 0
  else
    match flScale 2200 a b 0 with
    | (a', b', e') => (rhe a' b' : ℚ) * 2 ^ e'

/-- `delta.total_seconds()` (utils.py 50) on an exact-microsecond
datetime offset `dt`: the binary64 double nearest `dt`. -/
def totalSeconds (dt : ℚ) : ℚ :=
  if 0 ≤ dt then flRat dt.num.toNat dt.den else -flRat (-dt).num.toNat dt.den

/-- Binary64 division `x / d` of a double by a small positive integer
(the `total_seconds / (7*24*3600)` of utils.py 53): the double nearest
the exact quotient. -/
def flDiv (x : ℚ) (d : ℕ) : ℚ :=
  if 0 ≤ x then flRat x.num.toNat (x.den * d) else -flRat (-x).num.toNat (x.den * d)

/-- `datetime_to_gps_time` (utils.py 32-58): `total_seconds()` rounds the
exact offset to a double; the week is the truncated (`int(...)`) float
quotient by 604800; the seconds of week are the Python `%` of the float
total, which for nonnegative arguments is the *exact* remainder (float
`%` introduces no further rounding — `fmod` is exact). -/
def datetimeToGpsTime (dt : ℚ) : ℤ × ℚ :=
  let ts := totalSeconds dt
  (pyTrunc (flDiv ts 604800), pyModQ ts 604800)

/-! ### The query layer over ℝ (utils.py 60-339, example_usage.py 274-373)

A row of a parsed per-system DataFrame, with NaN cells as `none`. Only the
columns the query functions read are kept; `param not in row` and
`pd.isna(row[param])` behave identically at every use site, so both are
`none`. `Toe` is modelled as the seconds-of-week float the parsers store
(the `isinstance(toe, float)` datetime branch of utils.py 137-139 is
unreachable for parser-produced stores). -/

structure QRec where
  PRN : ℤ
  Epoch : ℝ
  svClockBias : Option ℝ
  svClockDrift : Option ℝ
  svClockDriftRate : Option ℝ
  sqrt_A : Option ℝ
  e : Option ℝ
  M0 : Option ℝ
  omega : Option ℝ
  OMEGA : Option ℝ
  i0 : Option ℝ
  Delta_n : Option ℝ
  Cuc : Option ℝ
  Cus : Option ℝ
  Crc : Option ℝ
  Crs : Option ℝ
  Cic : Option ℝ
  Cis : Option ℝ
  IDOT : Option ℝ
  OMEGA_DOT : Option ℝ
  Toe : Option ℝ
  GPS_week : Option ℝ
  GAL_week : Option ℝ
  BDT_week : Option ℝ

/-- Errors of the query layer. `missingData` is the
"Missing or NaN value for ..." `ValueError`; `nanTime` is the unhandled
conversion error `timedelta(seconds=nan)` raises inside
`gps_time_to_datetime`; `indexError` is the unhandled `iloc[-1]` on an
empty frame. -/
inductive NavErr
  | unsupportedSystem
  | noData
  | missingData (param : String)
  | nanTime
  | indexError
deriving Repr, DecidableEq

/-- `mu = 3.986005e14` (utils.py 99). -/
def muEarth : ℝ := 3.986005e14

/-- `omega_e = 7.2921151467e-5` (utils.py 100). -/
def omegaEarth : ℝ := 7.2921151467e-5

/-- Truncation toward zero of a real (`int()` on a Python float). -/
noncomputable def pyTruncR (x : ℝ) : ℤ := if 0 ≤ x then ⌊x⌋ else -⌊-x⌋

/-- The satellite-row selection shared by `interpolate_orbit` and
`compute_sv_clock_correction` (utils.py 90-96, 255-261): filter by PRN,
sort by `Epoch` (a stable sort models `sort_values`), take the last row
with `Epoch <= time`. An empty PRN filter raises the "No navigation data
found" `ValueError`; no row at or before `time` hits an unhandled
`IndexError` from `iloc[-1]`. -/
noncomputable def selectRow (navData : List QRec) (prn : ℤ) (time : ℝ) :
    Except NavErr QRec :=
  let satData := (navData.filter (fun r => r.PRN == prn)).mergeSort
    (fun a b => decide (a.Epoch ≤ b.Epoch))
  if satData.isEmpty then .error .noData
  else
    match (satData.filter (fun r => decide (r.Epoch ≤ time))).getLast? with
    | none => .error .indexError
    | some row => .ok row

/-- `required_params` of `interpolate_orbit` (utils.py 103), in check
order. `Toe` is not in this list. -/
def reqOrbitParams : List (String × (QRec → Option ℝ)) :=
  [("sqrt_A", QRec.sqrt_A), ("e", QRec.e), ("M0", QRec.M0),
   ("omega", QRec.omega), ("OMEGA", QRec.OMEGA), ("i0", QRec.i0),
   ("Delta_n", QRec.Delta_n), ("Cuc", QRec.Cuc), ("Cus", QRec.Cus),
   ("Crc", QRec.Crc), ("Crs", QRec.Crs), ("Cic", QRec.Cic),
   ("Cis", QRec.Cis), ("IDOT", QRec.IDOT), ("OMEGA_DOT", QRec.OMEGA_DOT)]

/-- The first missing/NaN required parameter, in the source's check order
(utils.py 104-106). -/
def firstMissingOrbit (row : QRec) : Option String :=
  (reqOrbitParams.find? (fun p => (p.2 row).isNone)).map (fun p => p.1)

/-- The week-number resolution of utils.py 119-134 and 299-314: the first
populated column among `GPS_week`, `GAL_week`, `BDT_week` (truncated to
int), falling back to the week of the current wall-clock time
(`datetime.now()`), passed here explicitly as `nowWeek`. -/
noncomputable def resolveWeek (row : QRec) (nowWeek : ℤ) : ℤ :=
  match row.GPS_week with
  | some w => pyTruncR w
  | none =>
    match row.GAL_week with
    | some w => pyTruncR w
    | none =>
      match row.BDT_week with
      | some w => pyTruncR w
      | none => nowWeek

/-- The Kepler fixed-point loop body (utils.py 151-156 and 325-330):
compute `E_next = M + e*sin(E)`; stop — returning the *current* `E` —
when `|E_next - E| < 1e-12`, else continue with `E_next`; at most `fuel`
iterations. -/
noncomputable def keplerGo (e M : ℝ) : ℕ → ℝ → ℝ
  | 0, E => E
  | n + 1, E =>
    if |M + e * Real.sin E - E| < 1e-12 then E
    else keplerGo e M n (M + e * Real.sin E)

/-- The eccentric anomaly after the 10-iteration loop started at `E = M`. -/
noncomputable def keplerE (e M : ℝ) : ℝ := keplerGo e M 10 M

/-- `np.arctan2 y x` on reals (the `y = 0, x < 0` ray maps to `π`). -/
noncomputable def arctan2 (y x : ℝ) : ℝ :=
  if 0 < x then Real.arctan (y / x)
  else if x < 0 then
    (if 0 ≤ y then Real.arctan (y / x) + Real.pi else Real.arctan (y / x) - Real.pi)
  else if 0 < y then Real.pi / 2
  else if y < 0 then -(Real.pi / 2)
  else 0

/-- The position/velocity dictionary returned by `interpolate_orbit`. -/
structure OrbitPos where
  X : ℝ
  Y : ℝ
  Z : ℝ
  VX : ℝ
  VY : ℝ
  VZ : ℝ

/-- The body of `interpolate_orbit` after row selection (utils.py 98-231),
transliterated term by term. -/
noncomputable def orbitFromRow (row : QRec) (time : ℝ) (nowWeek : ℤ) :
    Except NavErr OrbitPos :=
  match firstMissingOrbit row with
  | some p => .error (.missingData p)
  | none =>
    let A := (row.sqrt_A.getD 0) ^ 2
    let n0 := Real.sqrt (muEarth / A ^ 3)
    match row.Toe with
    | none => .error .nanTime
    | some toe =>
      let week := resolveWeek row nowWeek
      let toeDt := 604800 * (week : ℝ) + toe
      let dt := time - toeDt
      let n := n0 + row.Delta_n.getD 0
      let M := row.M0.getD 0 + n * dt
      let e := row.e.getD 0
      let E := keplerE e M
      let v := arctan2 (Real.sqrt (1 - e ^ 2) * Real.sin E) (Real.cos E - e)
      let phi := v + row.omega.getD 0
      let du := row.Cuc.getD 0 * Real.cos (2 * phi) + row.Cus.getD 0 * Real.sin (2 * phi)
      let dr := row.Crc.getD 0 * Real.cos (2 * phi) + row.Crs.getD 0 * Real.sin (2 * phi)
      let di := row.Cic.getD 0 * Real.cos (2 * phi) + row.Cis.getD 0 * Real.sin (2 * phi)
      let u := phi + du
      let r := A * (1 - e * Real.cos E) + dr
      let i := row.i0.getD 0 + di + row.IDOT.getD 0 * dt
      let xPrime := r * Real.cos u
      let yPrime := r * Real.sin u
      let Omega := row.OMEGA.getD 0 + (row.OMEGA_DOT.getD 0 - omegaEarth) * dt - omegaEarth * toe
      let X := xPrime * Real.cos Omega - yPrime * Real.cos i * Real.sin Omega
      let Y := xPrime * Real.sin Omega + yPrime * Real.cos i * Real.cos Omega
      let Z := yPrime * Real.sin i
      let EDot := n / (1 - e * Real.cos E)
      let phiDot := Real.sqrt (1 - e ^ 2) * EDot / (1 - e * Real.cos E)
      let uDot := phiDot * (1 + 2 * (row.Cus.getD 0 * Real.cos (2 * phi) - row.Cuc.getD 0 * Real.sin (2 * phi)))
      let rDot := A * e * Real.sin E * EDot + 2 * phiDot * (row.Crs.getD 0 * Real.cos (2 * phi) - row.Crc.getD 0 * Real.sin (2 * phi))
      let xPrimeDot := rDot * Real.cos u - r * uDot * Real.sin u
      let yPrimeDot := rDot * Real.sin u + r * uDot * Real.cos u
      let OmegaDot := row.OMEGA_DOT.getD 0 - omegaEarth
      let iDot := row.IDOT.getD 0 + 2 * phiDot * (row.Cis.getD 0 * Real.cos (2 * phi) - row.Cic.getD 0 * Real.sin (2 * phi))
      let VX := xPrimeDot * Real.cos Omega - yPrimeDot * Real.cos i * Real.sin Omega -
        yPrime * Real.sin i * iDot * Real.sin Omega -
        (xPrime * Real.sin Omega + yPrime * Real.cos i * Real.cos Omega) * OmegaDot
      let VY := xPrimeDot * Real.sin Omega + yPrimeDot * Real.cos i * Real.cos Omega +
        yPrime * Real.sin i * iDot * Real.cos Omega +
        (xPrime * Real.cos Omega - yPrime * Real.cos i * Real.sin Omega) * OmegaDot
      let VZ := yPrimeDot * Real.sin i + yPrime * Real.cos i * iDot
      .ok { X := X, Y := Y, Z := Z, VX := VX, VY := VY, VZ := VZ }

/-- `interpolate_orbit` (utils.py 60-231). `nowWeek` is the GPS week of
the wall-clock `datetime.now()` read in the source's fallback
(utils.py 133). -/
noncomputable def interpolateOrbit (navData : List QRec) (time : ℝ)
    (satSystem : Char) (prn : ℤ) (nowWeek : ℤ) : Except NavErr OrbitPos :=
  if satSystem ≠ 'G' ∧ satSystem ≠ 'J' then .error .unsupportedSystem
  else
    match selectRow navData prn time with
    | .error err => .error err
    | .ok row => orbitFromRow row time nowWeek

/-- `required_params` of `compute_sv_clock_correction` (utils.py 264). -/
def reqClockParams : List (String × (QRec → Option ℝ)) :=
  [("SV_clock_bias", QRec.svClockBias), ("SV_clock_drift", QRec.svClockDrift),
   ("SV_clock_drift_rate", QRec.svClockDriftRate)]

/-- The body of `compute_sv_clock_correction` after row selection
(utils.py 263-339). -/
noncomputable def clockFromRow (row : QRec) (time : ℝ) (satSystem : Char)
    (nowWeek : ℤ) : Except NavErr ℝ :=
  match (reqClockParams.find? (fun p => (p.2 row).isNone)).map (fun p => p.1) with
  | some p => .error (.missingData p)
  | none =>
    let a0 := row.svClockBias.getD 0
    let a1 := row.svClockDrift.getD 0
    let a2 := row.svClockDriftRate.getD 0
    let dt := time - row.Epoch
    let dtCorr := a0 + a1 * dt + a2 * dt ^ 2
    if satSystem = 'G' ∨ satSystem = 'J' then
      match row.e, row.sqrt_A with
      | some e, some sqrtA =>
        let A := sqrtA ^ 2
        let n0 := Real.sqrt (muEarth / A ^ 3)
        match row.Toe, row.M0 with
        | some toe, some m0 =>
          let week := resolveWeek row nowWeek
          let dtToe := time - (604800 * (week : ℝ) + toe)
          let M := m0 + n0 * dtToe
          let E := keplerE e M
          let F := -2 * Real.sqrt muEarth / (3e8 : ℝ) ^ 2
          .ok (dtCorr + F * e * Real.sqrt A * Real.sin E)
        | _, _ => .ok dtCorr
      | _, _ => .ok dtCorr
    else .ok dtCorr

/-- `compute_sv_clock_correction` (utils.py 233-339). -/
noncomputable def computeSvClockCorrection (navData : List QRec) (time : ℝ)
    (satSystem : Char) (prn : ℤ) (nowWeek : ℤ) : Except NavErr ℝ :=
  match selectRow navData prn time with
  | .error err => .error err
  | .ok row => clockFromRow row time satSystem nowWeek

/-! ### `compute_dop_values` (example_usage.py 274-373) -/

/-- `supported_systems = ['G']` (example_usage.py 296). -/
def supportedSystems : List Char := ['G']

/-- `df['PRN'].unique()`: first-occurrence order. -/
def uniquePRNs (df : List QRec) : List ℤ :=
  df.foldl (fun acc r => if acc.contains r.PRN then acc else acc ++ [r.PRN]) []

/-- The automatic visible-satellite list (example_usage.py 298-304): for
each supported system's frame, that frame's PRNs in first-occurrence
order. A per-constellation frame built from zero records is the
column-less `pd.DataFrame()` (reader.py 276), on which `df['PRN']`
raises an uncaught `KeyError` (example_usage.py 303). -/
def autoSats : List (Char × List QRec) → Except PyErr (List (Char × ℤ))
  | [] => .ok []
  | p :: rest =>
    if p.1 ∈ supportedSystems then
      if p.2.isEmpty then .error .keyError
      else
        match autoSats rest with
        | .error e => .error e
        | .ok l => .ok ((uniquePRNs p.2).map (fun n => (p.1, n)) ++ l)
    else autoSats rest

/-- The valid satellite positions collected by the DOP loop
(example_usage.py 311-325): skip unsupported systems, absent frames and
absent PRNs; every exception from `interpolate_orbit` is caught and the
satellite skipped. The PRN-membership test
`prn in nav_data[sys]['PRN'].values` (example_usage.py 317) is outside
any `try` and raises an uncaught `KeyError` on a column-less empty
frame. (The NaN check of line 321 cannot fire in the exact real model:
NaN cells are rejected as errors before arithmetic.) -/
noncomputable def validPositions (navData : List (Char × List QRec)) (time : ℝ) :
    List (Char × ℤ) → ℤ → Except PyErr (List (ℝ × ℝ × ℝ))
  | [], _ => .ok []
  | sp :: rest, nowWeek =>
    if sp.1 ∈ supportedSystems then
      match navData.find? (fun p => p.1 == sp.1) with
      | none => validPositions navData time rest nowWeek
      | some (_, df) =>
        if df.isEmpty then .error .keyError
        else if df.any (fun r => r.PRN == sp.2) then
          match interpolateOrbit df time sp.1 sp.2 nowWeek with
          | .ok p =>
            (validPositions navData time rest nowWeek).map
              (fun l => (p.X, p.Y, p.Z) :: l)
          | .error _ => validPositions navData time rest nowWeek
        else validPositions navData time rest nowWeek
    else validPositions navData time rest nowWeek

/-- One row `[a_x, a_y, a_z, 1]` of the geometry matrix
(example_usage.py 335-350). -/
noncomputable def gRow (recv : ℝ × ℝ × ℝ) (s : ℝ × ℝ × ℝ) : Fin 4 → ℝ :=
  let dx := s.1 - recv.1
  let dy := s.2.1 - recv.2.1
  let dz := s.2.2 - recv.2.2
  let rangeVal := Real.sqrt (dx ^ 2 + dy ^ 2 + dz ^ 2)
  ![dx / rangeVal, dy / rangeVal, dz / rangeVal, 1]

/-- `G.T @ G` for a list of geometry rows. -/
noncomputable def gtgOf (rows : List (Fin 4 → ℝ)) : Matrix (Fin 4) (Fin 4) ℝ :=
  Matrix.of fun i j => (rows.map (fun r => r i * r j)).sum

structure DopResult where
  GDOP : ℝ
  PDOP : ℝ
  HDOP : ℝ
  VDOP : ℝ
  TDOP : ℝ

/-- The satellite list the DOP loop iterates over
(example_usage.py 298-308): the explicit `visible_sats` if given, else all
satellites of supported systems; `.ok none` is the early "No satellites
from supported systems" return and `.error` the uncaught `KeyError` of
the automatic enumeration. -/
def dopSatList (navData : List (Char × List QRec))
    (visibleSats : Option (List (Char × ℤ))) : Except PyErr (Option (List (Char × ℤ))) :=
  match visibleSats with
  | some v => .ok (some v)
  | none =>
    match autoSats navData with
    | .error e => .error e
    | .ok auto => .ok (if auto.isEmpty then none else some auto)

/-- `compute_dop_values` (example_usage.py 274-373). `.ok none` models
every "return None" path: no supported satellites found, fewer than 4
valid positions, and the `np.linalg.LinAlgError` on a singular `GᵀG`
(exact model: zero determinant); `.error .keyError` is the uncaught
crash on a column-less per-constellation frame. -/
noncomputable def computeDopValues (navData : List (Char × List QRec))
    (recv : ℝ × ℝ × ℝ) (time : ℝ) (visibleSats : Option (List (Char × ℤ)))
    (nowWeek : ℤ) : Except PyErr (Option DopResult) :=
  match dopSatList navData visibleSats with
  | .error e => .error e
  | .ok none => .ok none
  | .ok (some vs) =>
    match validPositions navData time vs nowWeek with
    | .error e => .error e
    | .ok ps =>
      if ps.length < 4 then .ok none
      else
        let Gm := gtgOf (ps.map (gRow recv))
        if Gm.det = 0 then .ok none
        else
          let Q := Gm⁻¹
          .ok (some { GDOP := Real.sqrt (Matrix.trace Q),
                      PDOP := Real.sqrt (Q 0 0 + Q 1 1 + Q 2 2),
                      HDOP := Real.sqrt (Q 0 0 + Q 1 1),
                      VDOP := Real.sqrt (Q 2 2),
                      TDOP := Real.sqrt (Q 3 3) })

/-! ## Claim C10: GPS time conversions round-trip -/

/-- Round-half-even is the identity on exact quotients. -/
theorem rhe_exact {a b : ℕ} (hb : 0 < b) (hdvd : b ∣ a) : rhe a b = a / b := by
  unfold rhe
  obtain ⟨c, rfl⟩ := hdvd
  simp [Nat.mul_mod_right, hb]

/-- Round-half-even misses the exact quotient by at most half the
denominator. -/
theorem rhe_err {a b : ℕ} (hb : 0 < b) : |(rhe a b : ℚ) * b - a| ≤ (b : ℚ) / 2 := by
  have hd := Nat.div_add_mod a b
  have hdq : ((b : ℚ)) * ((a / b : ℕ) : ℚ) + ((a % b : ℕ) : ℚ) = (a : ℚ) := by
    exact_mod_cast hd
  have hrb : ((a % b : ℕ) : ℚ) < (b : ℚ) := by exact_mod_cast Nat.mod_lt _ hb
  have hr0 : (0 : ℚ) ≤ ((a % b : ℕ) : ℚ) := by positivity
  unfold rhe
  by_cases h1 : 2 * (a % b) < b
  · have h1q : 2 * ((a % b : ℕ) : ℚ) < (b : ℚ) := by exact_mod_cast h1
    rw [if_pos h1, abs_le]
    constructor <;> nlinarith [hdq]
  · have h1q : (b : ℚ) ≤ 2 * ((a % b : ℕ) : ℚ) := by
      exact_mod_cast Nat.le_of_not_lt h1
    rw [if_neg h1]
    by_cases h2 : b < 2 * (a % b)
    · have h2q : (b : ℚ) < 2 * ((a % b : ℕ) : ℚ) := by exact_mod_cast h2
      rw [if_pos h2, abs_le]
      push_cast
      constructor <;> nlinarith [hdq]
    · rw [if_neg h2]
      have h2q : (b : ℚ) = 2 * ((a % b : ℕ) : ℚ) := by
        exact_mod_cast le_antisymm (Nat.le_of_not_lt h1) (Nat.le_of_not_lt h2)
      by_cases h3 : (a / b) % 2 = 0
      · rw [if_pos h3, abs_le]
        constructor <;> nlinarith [hdq]
      · rw [if_neg h3, abs_le]
        push_cast
        constructor <;> nlinarith [hdq]

/-- Scaling invariant: with enough fuel, `flScale` lands in
`[2^52, 2^53)` and preserves the represented value. -/
theorem flScale_spec : ∀ (f a b : ℕ) (e : ℤ), 0 < a → 0 < b →
    2 ^ 52 * b ≤ 2 ^ f * a → a < 2 ^ 53 * 2 ^ f * b →
    0 < (flScale f a b e).1 ∧ 0 < (flScale f a b e).2.1 ∧
    2 ^ 52 * (flScale f a b e).2.1 ≤ (flScale f a b e).1 ∧
    (flScale f a b e).1 < 2 ^ 53 * (flScale f a b e).2.1 ∧
    ((flScale f a b e).1 : ℚ) / ((flScale f a b e).2.1 : ℚ) * 2 ^ (flScale f a b e).2.2
      = (a : ℚ) / (b : ℚ) * 2 ^ e := by
  intro f
  induction f with
  | zero =>
    intro a b e ha hb hlo hhi
    rw [pow_zero, one_mul] at hlo
    rw [pow_zero, mul_one] at hhi
    exact ⟨ha, hb, hlo, hhi, rfl⟩
  | succ f ih =>
    intro a b e ha hb hlo hhi
    by_cases h1 : a < 2 ^ 52 * b
    · have hs : flScale (f + 1) a b e = flScale f (2 * a) b (e - 1) := by
        show (if a < 2 ^ 52 * b then flScale f (2 * a) b (e - 1)
              else if 2 ^ 53 * b ≤ a then flScale f a (2 * b) (e + 1)
              else (a, b, e)) = _
        rw [if_pos h1]
      rw [hs]
      have hlo' : 2 ^ 52 * b ≤ 2 ^ f * (2 * a) := by
        calc 2 ^ 52 * b ≤ 2 ^ (f + 1) * a := hlo
          _ = 2 ^ f * (2 * a) := by ring
      have hhi' : 2 * a < 2 ^ 53 * 2 ^ f * b := by
        have h2f : (1 : ℕ) ≤ 2 ^ f := Nat.one_le_two_pow
        nlinarith
      obtain ⟨c1, c2, c3, c4, c5⟩ := ih (2 * a) b (e - 1) (by positivity) hb hlo' hhi'
      refine ⟨c1, c2, c3, c4, ?_⟩
      rw [c5]
      push_cast
      rw [zpow_sub_one₀ (by norm_num : (2 : ℚ) ≠ 0)]
      have hbq : ((b : ℚ)) ≠ 0 := by positivity
      field_simp
      ring
    · by_cases h2 : 2 ^ 53 * b ≤ a
      · have hs : flScale (f + 1) a b e = flScale f a (2 * b) (e + 1) := by
          show (if a < 2 ^ 52 * b then flScale f (2 * a) b (e - 1)
                else if 2 ^ 53 * b ≤ a then flScale f a (2 * b) (e + 1)
                else (a, b, e)) = _
          rw [if_neg h1, if_pos h2]
        rw [hs]
        have hlo' : 2 ^ 52 * (2 * b) ≤ 2 ^ f * a := by
          have hfa : a ≤ 2 ^ f * a := Nat.le_mul_of_pos_left a (by positivity)
          calc 2 ^ 52 * (2 * b) = 2 ^ 53 * b := by ring
            _ ≤ a := h2
            _ ≤ 2 ^ f * a := hfa
        have hhi' : a < 2 ^ 53 * 2 ^ f * (2 * b) := by
          calc a < 2 ^ 53 * 2 ^ (f + 1) * b := hhi
            _ = 2 ^ 53 * 2 ^ f * (2 * b) := by ring
        obtain ⟨c1, c2, c3, c4, c5⟩ := ih a (2 * b) (e + 1) ha (by positivity) hlo' hhi'
        refine ⟨c1, c2, c3, c4, ?_⟩
        rw [c5]
        push_cast
        rw [zpow_add_one₀ (by norm_num : (2 : ℚ) ≠ 0)]
        have hbq : ((b : ℚ)) ≠ 0 := by positivity
        field_simp
        ring
      · have hs : flScale (f + 1) a b e = (a, b, e) := by
          show (if a < 2 ^ 52 * b then flScale f (2 * a) b (e - 1)
                else if 2 ^ 53 * b ≤ a then flScale f a (2 * b) (e + 1)
                else (a, b, e)) = _
          rw [if_neg h1, if_neg h2]
        rw [hs]
        exact ⟨ha, hb, Nat.le_of_not_lt h1, Nat.lt_of_not_le h2, rfl⟩

/-- On an exact multiple of the denominator the scaling keeps the
denominator, the divisibility, and the value — the quotient stays
exactly representable. -/
theorem flScale_dvd : ∀ (f a b : ℕ) (e : ℤ), 0 < a → 0 < b → b ∣ a →
    a < 2 ^ 53 * b →
    (flScale f a b e).2.1 = b ∧ b ∣ (flScale f a b e).1 ∧
    ((flScale f a b e).1 : ℚ) / (b : ℚ) * 2 ^ (flScale f a b e).2.2
      = (a : ℚ) / (b : ℚ) * 2 ^ e := by
  intro f
  induction f with
  | zero => intro a b e ha hb hdvd hhi; exact ⟨rfl, hdvd, rfl⟩
  | succ f ih =>
    intro a b e ha hb hdvd hhi
    by_cases h1 : a < 2 ^ 52 * b
    · have hs : flScale (f + 1) a b e = flScale f (2 * a) b (e - 1) := by
        show (if a < 2 ^ 52 * b then flScale f (2 * a) b (e - 1)
              else if 2 ^ 53 * b ≤ a then flScale f a (2 * b) (e + 1)
              else (a, b, e)) = _
        rw [if_pos h1]
      rw [hs]
      have hhi' : 2 * a < 2 ^ 53 * b := by nlinarith
      obtain ⟨c1, c2, c3⟩ := ih (2 * a) b (e - 1) (by positivity) hb (hdvd.mul_left 2) hhi'
      refine ⟨c1, c2, ?_⟩
      rw [c3]
      push_cast
      rw [zpow_sub_one₀ (by norm_num : (2 : ℚ) ≠ 0)]
      have hbq : ((b : ℚ)) ≠ 0 := by positivity
      field_simp
      ring
    · have h2 : ¬ 2 ^ 53 * b ≤ a := not_le.mpr hhi
      have hs : flScale (f + 1) a b e = (a, b, e) := by
        show (if a < 2 ^ 52 * b then flScale f (2 * a) b (e - 1)
              else if 2 ^ 53 * b ≤ a then flScale f a (2 * b) (e + 1)
              else (a, b, e)) = _
        rw [if_neg h1, if_neg h2]
      rw [hs]
      exact ⟨rfl, hdvd, rfl⟩

/-- `flRat` is nonnegative. -/
theorem flRat_nonneg (a b : ℕ) : 0 ≤ flRat a b := by
  unfold flRat
  by_cases h : a = 0
  · simp [h]
  · rw [if_neg h]
    rcases flScale 2200 a b 0 with ⟨a2, b2, e2⟩
    show (0 : ℚ) ≤ (rhe a2 b2 : ℚ) * 2 ^ e2
    positivity

/-- `flRat` is exact on integers below `2^53`. -/
theorem flRat_intCast (a : ℕ) (ha : a < 2 ^ 53) : flRat a 1 = (a : ℚ) := by
  rcases Nat.eq_zero_or_pos a with h0 | hpos
  · subst h0; simp [flRat]
  · unfold flRat
    rw [if_neg hpos.ne.symm]
    obtain ⟨c1, c2, c3⟩ := flScale_dvd 2200 a 1 0 hpos one_pos (one_dvd a)
      (by simpa using ha)
    rcases hsc : flScale 2200 a 1 0 with ⟨a2, b2, e2⟩
    rw [hsc] at c1 c2 c3
    simp only at c1 c2 c3
    subst c1
    show (rhe a2 1 : ℚ) * 2 ^ e2 = (a : ℚ)
    rw [rhe_exact one_pos c2]
    simp only [Nat.div_one]
    simpa using c3

/-- `totalSeconds` is exact on whole-second offsets below `2^53`
(an integer that small is exactly representable in binary64). -/
theorem totalSeconds_natCast (n : ℕ) (hn : n < 2 ^ 53) :
    totalSeconds (n : ℚ) = (n : ℚ) := by
  unfold totalSeconds
  rw [if_pos (by positivity), Rat.num_natCast, Rat.den_natCast, Int.toNat_natCast]
  exact flRat_intCast n hn

/-- The float quotient `n / 604800` of an exact integer `n < 2^53` has
the true floor: the division rounding never crosses a week boundary. -/
theorem flRat_floor_div (n : ℕ) (hpos : 0 < n) (hn : n < 2 ^ 53) :
    ⌊flRat n 604800⌋ = ⌊(n : ℚ) / 604800⌋ := by
  by_cases hdvd : (604800 : ℕ) ∣ n
  · obtain ⟨c1, c2, c3⟩ := flScale_dvd 2200 n 604800 0 hpos (by norm_num) hdvd
      (by calc n < 2 ^ 53 := hn
            _ ≤ 2 ^ 53 * 604800 := Nat.le_mul_of_pos_right _ (by norm_num))
    have hVq : flRat n 604800 = (n : ℚ) / 604800 := by
      unfold flRat
      rw [if_neg hpos.ne.symm]
      rcases hsc : flScale 2200 n 604800 0 with ⟨A, B, E⟩
      rw [hsc] at c1 c2 c3
      simp only at c1 c2 c3
      subst c1
      show (rhe A 604800 : ℚ) * 2 ^ E = (n : ℚ) / 604800
      rw [rhe_exact (by norm_num) c2,
        Nat.cast_div c2 (by norm_num : ((604800 : ℕ) : ℚ) ≠ 0)]
      simpa using c3
    rw [hVq]
  · obtain ⟨hA, hB, hAB, hAB2, hval⟩ := flScale_spec 2200 n 604800 0 hpos (by norm_num)
      (by calc 2 ^ 52 * 604800 ≤ 2 ^ 52 * 2 ^ 20 := by norm_num
            _ = 2 ^ 72 := by norm_num
            _ ≤ 2 ^ 2200 := Nat.pow_le_pow_right (by norm_num) (by norm_num)
            _ ≤ 2 ^ 2200 * n := Nat.le_mul_of_pos_right _ hpos)
      (by calc n < 2 ^ 53 := hn
            _ ≤ 2 ^ 53 * (2 ^ 2200 * 604800) := Nat.le_mul_of_pos_right _ (by positivity)
            _ = 2 ^ 53 * 2 ^ 2200 * 604800 := by ring)
    rcases hsc : flScale 2200 n 604800 0 with ⟨A, B, E⟩
    rw [hsc] at hA hB hAB hAB2 hval
    simp only at hA hB hAB hAB2 hval
    have hVdef : flRat n 604800 = (rhe A B : ℚ) * 2 ^ E := by
      unfold flRat
      rw [if_neg hpos.ne.symm, hsc]
    set V := flRat n 604800 with hV
    have hBq : (0 : ℚ) < (B : ℚ) := by exact_mod_cast hB
    have hEq : (0 : ℚ) < (2 : ℚ) ^ E := by positivity
    have hABq : (2 : ℚ) ^ 52 * (B : ℚ) ≤ (A : ℚ) := by exact_mod_cast hAB
    have hval' : ((A : ℚ) / B) * 2 ^ E = (n : ℚ) / 604800 := by
      rw [hval]; norm_num
    have herr : |V - (n : ℚ) / 604800| ≤ (2 : ℚ) ^ E / 2 := by
      have h1 : V - (n : ℚ) / 604800 = ((rhe A B : ℚ) * B - A) / B * 2 ^ E := by
        rw [hVdef, ← hval', sub_div, mul_div_cancel_right₀ _ hBq.ne']
        ring
      rw [h1, abs_mul, abs_div, abs_of_pos hEq, abs_of_pos hBq]
      have h2 := rhe_err (a := A) hB
      calc |(rhe A B : ℚ) * B - A| / B * 2 ^ E
          ≤ ((B : ℚ) / 2) / B * 2 ^ E := by gcongr
        _ = (2 : ℚ) ^ E / 2 := by
            field_simp
            ring
    have hE52 : (2 : ℚ) ^ E * 2 ^ 52 ≤ (n : ℚ) / 604800 := by
      have h52 : (2 : ℚ) ^ 52 ≤ (A : ℚ) / B := (le_div_iff hBq).mpr hABq
      calc (2 : ℚ) ^ E * 2 ^ 52 = 2 ^ 52 * 2 ^ E := by ring
        _ ≤ (A : ℚ) / B * 2 ^ E := mul_le_mul_of_nonneg_right h52 hEq.le
        _ = (n : ℚ) / 604800 := hval'
    have hnq : (n : ℚ) < 2 ^ 53 := by exact_mod_cast hn
    have hnq0 : (0 : ℚ) < (n : ℚ) := by exact_mod_cast hpos
    have herr2 : |V - (n : ℚ) / 604800| ≤ ((n : ℚ) / 604800) / 2 ^ 53 := by
      have h253 : (2 : ℚ) ^ (53 : ℕ) = 2 * 2 ^ (52 : ℕ) := by norm_num
      calc |V - (n : ℚ) / 604800| ≤ 2 ^ E / 2 := herr
        _ ≤ ((n : ℚ) / 604800) / 2 ^ 53 := by
          rw [div_le_div_iff (by norm_num) (by positivity)]
          nlinarith [hE52, h253]
    have hsmall : ((n : ℚ) / 604800) / 2 ^ 53 < 1 / 604800 := by
      rw [div_lt_div_iff (by positivity) (by norm_num)]
      nlinarith [hnq]
    set W : ℕ := n / 604800 with hWdef
    set r : ℕ := n % 604800 with hrdef
    have hrne : r ≠ 0 := fun hc => hdvd (Nat.dvd_of_mod_eq_zero (hrdef ▸ hc))
    have hr1 : 1 ≤ r := Nat.one_le_iff_ne_zero.mpr hrne
    have hr2 : r < 604800 := Nat.mod_lt _ (by norm_num)
    have hWr : (n : ℚ) = 604800 * (W : ℚ) + (r : ℚ) := by
      exact_mod_cast (Nat.div_add_mod n 604800).symm
    have hq_decomp : (n : ℚ) / 604800 = (W : ℚ) + (r : ℚ) / 604800 := by
      rw [hWr]
      field_simp
      ring
    have hr1q : (1 : ℚ) ≤ (r : ℚ) := by exact_mod_cast hr1
    have hr2q : (r : ℚ) < 604800 := by exact_mod_cast hr2
    have habs := abs_le.mp herr2
    have hVl : (W : ℚ) < V := by
      have : (W : ℚ) + 1 / 604800 ≤ (n : ℚ) / 604800 := by
        rw [hq_decomp]
        have : (1 : ℚ) / 604800 ≤ (r : ℚ) / 604800 := by
          gcongr
        linarith
      linarith [habs.1, hsmall]
    have hVu : V < (W : ℚ) + 1 := by
      have : (n : ℚ) / 604800 ≤ (W : ℚ) + 1 - 1 / 604800 := by
        rw [hq_decomp]
        have hrq : (r : ℚ) ≤ 604799 := by
          have h99 : r ≤ 604799 := by omega
          exact_mod_cast h99
        have : (r : ℚ) / 604800 ≤ 604799 / 604800 := by gcongr
        linarith
      linarith [habs.2, hsmall]
    have hfV : ⌊V⌋ = (W : ℤ) := by
      rw [Int.floor_eq_iff]
      constructor
      · push_cast; linarith [hVl]
      · push_cast; linarith [hVu]
    have hfq : ⌊(n : ℚ) / 604800⌋ = (W : ℤ) := by
      rw [Int.floor_eq_iff]
      constructor
      · push_cast
        rw [hq_decomp]
        have : (0 : ℚ) ≤ (r : ℚ) / 604800 := by positivity
        linarith
      · push_cast
        rw [hq_decomp]
        have : (r : ℚ) / 604800 < 1 := by
          rw [div_lt_one (by norm_num : (0:ℚ) < 604800)]
          exact hr2q
        linarith
    rw [hfV, hfq]

/-- **C10 (amended).** For every whole-second datetime at or after the
GPS epoch (offset an integer number of seconds `n < 2^53` — every valid
`datetime` with `microsecond == 0` qualifies), `datetime_to_gps_time`
followed by `gps_time_to_datetime` returns the original datetime; and for
*every* datetime at or after the epoch the seconds-of-week component lies
in `[0, 604800)`. (The full round trip fails off the whole-second grid:
see the counterexample.) -/
theorem gps_time_roundtrip :
    (∀ n : ℕ, n < 2 ^ 53 →
      gpsTimeToDatetime (datetimeToGpsTime (n : ℚ)).1 (datetimeToGpsTime (n : ℚ)).2
        = (n : ℚ)) ∧
    (∀ dt : ℚ, 0 ≤ dt →
      0 ≤ (datetimeToGpsTime dt).2 ∧ (datetimeToGpsTime dt).2 < 604800) := by
  constructor
  · intro n hn
    have hts : totalSeconds (n : ℚ) = (n : ℚ) := totalSeconds_natCast n hn
    rcases Nat.eq_zero_or_pos n with h0 | hpos
    · subst h0
      have hts0 : totalSeconds ((0 : ℕ) : ℚ) = 0 := by
        unfold totalSeconds
        rw [Nat.cast_zero, if_pos le_rfl]
        rw [show (0 : ℚ).num.toNat = 0 from rfl]
        unfold flRat
        rw [if_pos rfl]
      have hdiv0 : flDiv (0 : ℚ) 604800 = 0 := by
        unfold flDiv
        rw [if_pos le_rfl]
        rw [show (0 : ℚ).num.toNat = 0 from rfl]
        unfold flRat
        rw [if_pos rfl]
      simp only [datetimeToGpsTime, hts0, hdiv0, gpsTimeToDatetime, pyModQ, pyTrunc,
        if_pos le_rfl]
      norm_num
    · have hfd : flDiv (n : ℚ) 604800 = flRat n 604800 := by
        unfold flDiv
        rw [if_pos (by positivity), Rat.num_natCast, Rat.den_natCast, Int.toNat_natCast,
          one_mul]
      have hfloor := flRat_floor_div n hpos hn
      have hnn : 0 ≤ flRat n 604800 := flRat_nonneg _ _
      simp only [datetimeToGpsTime, hts, hfd, gpsTimeToDatetime, pyModQ, pyTrunc,
        if_pos hnn]
      rw [hfloor]
      ring
  · intro dt hdt
    have hts0 : 0 ≤ totalSeconds dt := by
      unfold totalSeconds
      rw [if_pos hdt]
      exact flRat_nonneg _ _
    have h1 : ((⌊totalSeconds dt / 604800⌋ : ℤ) : ℚ) ≤ totalSeconds dt / 604800 :=
      Int.floor_le _
    have h2 : totalSeconds dt / 604800 < ⌊totalSeconds dt / 604800⌋ + 1 :=
      Int.lt_floor_add_one _
    constructor
    · simp only [datetimeToGpsTime, pyModQ]
      nlinarith
    · simp only [datetimeToGpsTime, pyModQ]
      nlinarith

/-- Witness for C10 (amended): the whole-second datetime `n = 1000001` s
after the epoch round-trips, and the mid-week fractional datetime
`1826745/2` s has its seconds-of-week in range. -/
theorem gps_time_roundtrip_witness :
    ((1000001 : ℕ) < 2 ^ 53 ∧
      gpsTimeToDatetime (datetimeToGpsTime ((1000001 : ℕ) : ℚ)).1
        (datetimeToGpsTime ((1000001 : ℕ) : ℚ)).2 = ((1000001 : ℕ) : ℚ)) ∧
    (0 ≤ (1826745/2 : ℚ) ∧
      0 ≤ (datetimeToGpsTime (1826745/2 : ℚ)).2 ∧
      (datetimeToGpsTime (1826745/2 : ℚ)).2 < 604800) :=
  ⟨⟨by norm_num, gps_time_roundtrip.1 1000001 (by norm_num)⟩,
   ⟨by norm_num, gps_time_roundtrip.2 (1826745/2) (by norm_num)⟩⟩

/-- **C10 counterexample.** The datetime 9000-01-01 00:00:00.000001 lies
after the GPS epoch, but it does not round-trip: its offset is
221529427200 + 10⁻⁶ seconds, `total_seconds()` (utils.py 50) returns the
nearest binary64 double — exactly 221529427200.0, whose spacing at this
magnitude is ≈ 30.5 µs — and the reconstructed datetime is 9000-01-01
00:00:00.000000, one microsecond early. -/
theorem gps_time_roundtrip_counterexample :
    mkDatetime 9000 1 1 0 0 0 1 = some (Rat.divInt 221529427200000001 1000000) ∧
    gpsTimeToDatetime
        (datetimeToGpsTime (Rat.divInt 221529427200000001 1000000)).1
        (datetimeToGpsTime (Rat.divInt 221529427200000001 1000000)).2 ≠
      Rat.divInt 221529427200000001 1000000 := by
  refine ⟨by decide, ?_⟩
  have hts : totalSeconds (Rat.divInt 221529427200000001 1000000) =
      (221529427200 : ℚ) := by
    unfold totalSeconds
    rw [if_pos (by decide)]
    rw [show (Rat.divInt 221529427200000001 1000000).num.toNat = 221529427200000001
          from by decide,
        show (Rat.divInt 221529427200000001 1000000).den = 1000000 from by decide]
    unfold flRat
    rw [if_neg (by decide : ¬ (221529427200000001 : ℕ) = 0)]
    rw [show flScale 2200 221529427200000001 1000000 0 =
          (7259076270489600032768, 1000000, -15) from by decide]
    show (rhe 7259076270489600032768 1000000 : ℚ) * 2 ^ (-15 : ℤ) = 221529427200
    rw [show rhe 7259076270489600032768 1000000 = 7259076270489600 from by decide]
    rw [show ((-15 : ℤ)) = -(15 : ℕ) from by decide, zpow_neg, zpow_natCast]
    norm_num
  have hdiv : flDiv (221529427200 : ℚ) 604800 =
      (6292735746862519 : ℚ) * 2 ^ (-34 : ℤ) := by
    unfold flDiv
    rw [if_pos (by norm_num)]
    rw [show (221529427200 : ℚ).num.toNat = 221529427200 from by decide,
        show (221529427200 : ℚ).den = 1 from by decide]
    unfold flRat
    rw [if_neg (by decide : ¬ (221529427200 : ℕ) = 0)]
    rw [show (1 : ℕ) * 604800 = 604800 from by decide]
    rw [show flScale 2200 221529427200 604800 0 =
          (3805846579702451404800, 604800, -34) from by decide]
    show (rhe 3805846579702451404800 604800 : ℚ) * 2 ^ (-34 : ℤ) =
      (6292735746862519 : ℚ) * 2 ^ (-34 : ℤ)
    rw [show rhe 3805846579702451404800 604800 = 6292735746862519 from by decide]
    norm_num
  have htr : pyTrunc ((6292735746862519 : ℚ) * 2 ^ (-34 : ℤ)) = 366285 := by
    have hpos : (0 : ℚ) ≤ (6292735746862519 : ℚ) * 2 ^ (-34 : ℤ) := by positivity
    unfold pyTrunc
    rw [if_pos hpos]
    rw [show ((-34 : ℤ)) = -(34 : ℕ) from by decide, zpow_neg, zpow_natCast,
      ← div_eq_mul_inv]
    rw [Int.floor_eq_iff]
    constructor
    · rw [le_div_iff (by norm_num : (0 : ℚ) < 2 ^ (34 : ℕ))]
      norm_num
    · rw [div_lt_iff (by norm_num : (0 : ℚ) < 2 ^ (34 : ℕ))]
      norm_num
  have hfloorTS : ⌊(221529427200 : ℚ) / 604800⌋ = 366285 := by
    rw [Int.floor_eq_iff]
    constructor
    · rw [le_div_iff (by norm_num : (0 : ℚ) < 604800)]
      norm_num
    · rw [div_lt_iff (by norm_num : (0 : ℚ) < 604800)]
      norm_num
  have hmod : pyModQ (221529427200 : ℚ) 604800 = 259200 := by
    unfold pyModQ
    rw [hfloorTS]
    norm_num
  simp only [datetimeToGpsTime, hts, hdiv, htr, hmod, gpsTimeToDatetime]
  rw [Rat.divInt_eq_div]
  norm_num

/-! ## Claim C8: version dispatch of `read_rinex_nav` -/

/-- **C8.** `read_rinex_nav` routes a numeric first-line version `v` with
`2.0 ≤ v < 3.0` to the v2 reader and `v ≥ 3.0` (4.00 included) to the
v3/v4 reader, and fails with the format error ("Cannot determine RINEX
version") when the version field is not numeric — before selecting any
reader. -/
theorem read_rinex_nav_dispatch :
    (∀ (c : Chars) (v : ℚ), versionOf c = some v → 2 ≤ v → v < 3 →
      readRinexNav c = (rinex2Read c).map (fun p => .v2 p.1 p.2)) ∧
    (∀ (c : Chars) (v : ℚ), versionOf c = some v → 3 ≤ v →
      readRinexNav c = (rinex3Read c).map (fun p => .v3 p.1 p.2)) ∧
    (∀ c : Chars, versionOf c = none → readRinexNav c = .error .formatError) := by
  refine ⟨?_, ?_, ?_⟩
  · intro c v hv h2 h3
    simp only [readRinexNav, hv]
    rw [if_pos ⟨h2, h3⟩]
  · intro c v hv h3
    simp only [readRinexNav, hv]
    rw [if_neg (by rintro ⟨-, hlt⟩; exact absurd h3 (not_le.mpr hlt)), if_pos h3]
  · intro c hv
    simp only [readRinexNav, hv]

/-- Witness for C8: a `2.11` header routes to the v2 reader, a `4.00`
header routes to the v3/v4 reader, and a non-numeric version field is a
format error. -/
theorem read_rinex_nav_dispatch_witness :
    (versionOf ("     2.11           N".data) = some (Rat.divInt 211 100) ∧
      readRinexNav ("     2.11           N".data) =
        (rinex2Read ("     2.11           N".data)).map (fun p => .v2 p.1 p.2)) ∧
    (versionOf ("     4.00           N".data) = some (Rat.divInt 4 1) ∧
      readRinexNav ("     4.00           N".data) =
        (rinex3Read ("     4.00           N".data)).map (fun p => .v3 p.1 p.2)) ∧
    (versionOf ("RINEX junk".data) = none ∧
      readRinexNav ("RINEX junk".data) = .error .formatError) :=
  ⟨⟨by decide, read_rinex_nav_dispatch.1 _ (Rat.divInt 211 100) (by decide)
      (by rw [Rat.divInt_eq_div]; norm_num) (by rw [Rat.divInt_eq_div]; norm_num)⟩,
   ⟨by decide, read_rinex_nav_dispatch.2.1 _ (Rat.divInt 4 1) (by decide)
      (by rw [Rat.divInt_eq_div]; norm_num)⟩,
   ⟨by decide, read_rinex_nav_dispatch.2.2 _ (by decide)⟩⟩

/-! ## Claim C5: `_parse_rinex_float` never raises; all-strategies-fail ⇒ NaN -/

/-- Dissection of an `Except` bind that succeeded. -/
theorem exceptBind_ok {ε α β : Type} {x : Except ε α} {f : α → Except ε β} {b : β} :
    x >>= f = Except.ok b ↔ ∃ a, x = Except.ok a ∧ f a = Except.ok b := by
  cases x with
  | error e =>
    constructor
    · intro h; exact absurd h (by simp [Bind.bind, Except.bind])
    · rintro ⟨a, ha, -⟩; cases ha
  | ok a =>
    constructor
    · intro h; exact ⟨a, rfl, by simpa [Bind.bind, Except.bind] using h⟩
    · rintro ⟨a2, ha, hf⟩; cases ha; simpa [Bind.bind, Except.bind] using hf

/-- `orRaise` succeeds exactly on `some`. -/
theorem orRaise_ok {α : Type} {o : Option α} {a : α} :
    orRaise o = Except.ok a ↔ o = some a := by
  cases o <;> simp [orRaise]

/-- The caught v2 record parse succeeds exactly when the explicit one
does. -/
theorem parseRecord2_ok {line : Chars} {cont : List Chars} {r : NavRec2} :
    parseRecord2 line cont = some r ↔ parseRecord2E line cont = .ok r := by
  unfold parseRecord2
  cases h : parseRecord2E line cont <;> simp [Except.toOption]

/-- **C5 counterexample.** Two failures of the claim. (a) On the empty
string every parsing strategy of `_parse_rinex_float` fails (direct
`float`, both `D`-substitutions, the mantissa/exponent split, whitespace
stripping, regex extraction), yet the function returns `0.0` — not the
NaN missing sentinel — because of the empty/whitespace early return of
reader.py 294-296. (b) The function does not always return: on
`"1.0D400"` the split strategy computes `1.0 * (10 ** 400)`
(reader.py 345) and the conversion of the 401-digit integer to a float
raises an `OverflowError` that the `except (ValueError, IndexError)` of
reader.py 346 does not catch. -/
theorem parse_rinex_float_empty_counterexample :
    (pyFloat (pyStrip ([] : Chars)) = none ∧
      stratDSign (pyStrip ([] : Chars)) = none ∧
      stratDSpace (pyStrip ([] : Chars)) = none ∧
      stratSplitD (pyStrip ([] : Chars)) = .ok none ∧
      stratStripSpaces (pyStrip ([] : Chars)) = none ∧
      stratRegexToken (pyStrip ([] : Chars)) = none ∧
      parseRinexFloat ([] : Chars) = .ok (some 0)) ∧
    parseRinexFloat "1.0D400".data = .error .overflowError := by
  decide

/-- **C5 (amended).** For every input that is not empty/whitespace-only,
if the direct parse and all five fallback strategies fail — in particular
the split strategy neither succeeds nor overflows — then
`_parse_rinex_float` returns the NaN missing sentinel without raising. -/
theorem parse_rinex_float_all_fail_nan (s : Chars)
    (hw : s.all isPySpace = false)
    (h1 : pyFloat (pyStrip s) = none)
    (h2 : stratDSign (pyStrip s) = none)
    (h3 : stratDSpace (pyStrip s) = none)
    (h4 : stratSplitD (pyStrip s) = .ok none)
    (h5 : stratStripSpaces (pyStrip s) = none)
    (h6 : stratRegexToken (pyStrip s) = none) :
    parseRinexFloat s = .ok none := by
  unfold parseRinexFloat
  rw [hw]
  simp only [Bool.false_eq_true, if_false, h1, h2, h3, h4, h5, h6]
  cases hd : (pyStrip s).contains 'D' <;>
    simp [hd, h2, h3, h4, h5, h6]

/-- Witness for C5 (amended) at the concrete field text `"abc"`. -/
theorem parse_rinex_float_all_fail_nan_witness :
    ("abc".data.all isPySpace = false ∧
      pyFloat (pyStrip "abc".data) = none ∧
      stratDSign (pyStrip "abc".data) = none ∧
      stratDSpace (pyStrip "abc".data) = none ∧
      stratSplitD (pyStrip "abc".data) = .ok none ∧
      stratStripSpaces (pyStrip "abc".data) = none ∧
      stratRegexToken (pyStrip "abc".data) = none) ∧
    parseRinexFloat "abc".data = .ok none :=
  ⟨⟨by decide, by decide, by decide, by decide, by decide, by decide, by decide⟩,
   parse_rinex_float_all_fail_nan _ (by decide) (by decide) (by decide) (by decide)
     (by decide) (by decide) (by decide)⟩

/-! ## Claim C9: empty/whitespace numeric fields parse to `0.0` -/

/-- **C9.** An empty or whitespace-only field is parsed by
`_parse_rinex_float` as `0.0` rather than the NaN sentinel
(reader.py 294-296); consequently a blank clock-bias, clock-drift or
clock-drift-rate field on a v2 record's first line is stored as `0.0`
(reader.py 169-186). -/
theorem blank_clock_fields_zero :
    (∀ s : Chars, s.all isPySpace = true → parseRinexFloat s = .ok (some 0)) ∧
    (∀ (line : Chars) (cont : List Chars) (r : NavRec2),
      parseRecord2 line cont = some r →
      ((pySlice line 22 41).all isPySpace = true → r.svClockBias = some 0) ∧
      ((pySlice line 41 60).all isPySpace = true → r.svClockDrift = some 0) ∧
      ((pySlice line 60 79).all isPySpace = true → r.svClockDriftRate = some 0)) := by
  have base : ∀ s : Chars, s.all isPySpace = true → parseRinexFloat s = .ok (some 0) := by
    intro s h
    unfold parseRinexFloat
    rw [h]
    simp
  refine ⟨base, ?_⟩
  intro line cont r hr
  rw [parseRecord2_ok] at hr
  have hproj : parseRinexFloat (pySlice line 22 41) = .ok r.svClockBias ∧
      parseRinexFloat (pySlice line 41 60) = .ok r.svClockDrift ∧
      parseRinexFloat (pySlice line 60 79) = .ok r.svClockDriftRate := by
    simp only [parseRecord2E, exceptBind_ok, orRaise_ok, Except.ok.injEq] at hr
    obtain ⟨a1, -, a2, -, a3, -, a4, -, a5, -, a6, -, a7, -, b1, hb1, b2, hb2, b3, hb3,
      a8, -, ps, -, hrec⟩ := hr
    subst hrec
    exact ⟨hb1, hb2, hb3⟩
  refine ⟨fun hb => ?_, fun hd => ?_, fun hdr => ?_⟩
  · have := hproj.1; rw [base _ hb] at this; exact (Except.ok.injEq _ _).mp this.symm
  · have := hproj.2.1; rw [base _ hd] at this; exact (Except.ok.injEq _ _).mp this.symm
  · have := hproj.2.2; rw [base _ hdr] at this; exact (Except.ok.injEq _ _).mp this.symm

/-- Witness for C9: the whitespace field and a concrete v2 first line with
all three clock fields blank. -/
theorem blank_clock_fields_zero_witness :
    (("   ".data).all isPySpace = true ∧ parseRinexFloat ("   ".data) = .ok (some 0)) ∧
    (parseRecord2 (" 1 02  1  1  0  0  0.0".data) [] =
        some { PRN := 1, Epoch := 693878400, svClockBias := some 0,
               svClockDrift := some 0, svClockDriftRate := some 0, params := [] } ∧
      ({ PRN := 1, Epoch := 693878400, svClockBias := some 0, svClockDrift := some 0,
         svClockDriftRate := some 0, params := [] } : NavRec2).svClockBias = some 0) :=
  ⟨⟨by decide, blank_clock_fields_zero.1 _ (by decide)⟩,
   ⟨by decide,
    ((blank_clock_fields_zero.2 (" 1 02  1  1  0  0  0.0".data) [] _ (by decide)).1
      (by decide))⟩⟩

/-! ## Claims C2/C4: concrete RINEX files -/

/-- A well-formed minimal v2 header (version `2.11`). -/
def v2FileHeader : Chars :=
  ("     2.11           N: GPS NAV DATA                         RINEX VERSION / TYPE\n" ++
   "                                                            END OF HEADER\n").data

/-- Two v2 records for PRN 1 with epochs 2002-01-01T01:00 and
2002-01-01T00:00 — deliberately *not* in chronological order; the
continuation lines are blank (parsed fields degrade to missing). -/
def v2FileData : Chars :=
  (" 1 02  1  1  1  0  0.0 4.691267386079D-04-1.000444171950D-11 0.000000000000D+00\n" ++
   " \n \n \n \n \n \n \n" ++
   " 1 02  1  1  0  0  0.0\n" ++
   " \n \n \n \n \n \n \n").data

def v2File : Chars := v2FileHeader ++ v2FileData

/-- A v3 file whose only data record has a malformed PRN field (`G0A`). -/
def v3BadFile : Chars :=
  ("     3.04           N: GNSS NAV DATA                        RINEX VERSION / TYPE\n" ++
   "                                                            END OF HEADER\n" ++
   "G0A 2022 01 01 00 00 00 0.000000000000D+00 0.000000000000D+00 0.000000000000D+00\n").data

/-! ## Claim C2: malformed data never aborts the parse -/

/-- The version field of a header as the v2/v3 header parsers read it
(first line of the *stripped* header content, columns 0-9). -/
def headerVersionField (hdr : Chars) : Option ℚ :=
  match pySplitNL (pyStrip hdr) with
  | [] => none
  | first :: _ => pyFloat (pySlice first 0 9)

set_option maxRecDepth 4000 in
/-- **C2 counterexample.** `v3BadFile` contains `END OF HEADER` and a
numeric first-line version (3.04), yet reading it aborts with an
unhandled `ValueError`: the v3 parser's `int(sat_id[1:3])`
(reader.py 508) is not protected by any record-level `try`, so one
malformed record kills the whole dataset. -/
theorem rinex3_malformed_record_aborts :
    (splitEOH v3BadFile).isSome = true ∧
    versionOf v3BadFile = some (Rat.divInt 304 100) ∧
    readRinexNav v3BadFile = .error .valueError := by
  refine ⟨by decide, by decide, by decide⟩

/-- **C2 (amended).** The v2 parser does satisfy the claim: for every
file whose header contains `END OF HEADER` and whose header version field
is numeric, the v2 read runs to completion without raising — every
malformed field/record in the data section degrades to a missing value or
a skipped record. (The v3/v4 parser does not: see the counterexample.) -/
theorem rinex2_parse_never_aborts (content hdr dat : Chars) (v : ℚ)
    (hsplit : splitEOH content = some (hdr, dat))
    (hver : headerVersionField hdr = some v) :
    ∃ h recs, rinex2Read content = .ok (h, recs) := by
  have hh : ∃ h2, parseHeader2 hdr = some h2 := by
    unfold headerVersionField at hver
    unfold parseHeader2
    cases hsp : pySplitNL (pyStrip hdr) with
    | nil => rw [hsp] at hver; cases hver
    | cons first rest =>
      simp only [hsp] at hver ⊢
      simp only [hver]
      exact ⟨_, rfl⟩
  obtain ⟨h2, hh2⟩ := hh
  unfold rinex2Read
  simp only [hsplit, hh2]
  exact ⟨h2, rinex2ParseData dat, rfl⟩

set_option maxRecDepth 8000 in
/-- Witness for C2 (amended) on the concrete file `v2File` (which even
contains a record with blank trailing fields). -/
theorem rinex2_parse_never_aborts_witness :
    (splitEOH v2File = some (v2FileHeader, v2FileData) ∧
      headerVersionField v2FileHeader = some (Rat.divInt 211 100)) ∧
    ∃ h recs, rinex2Read v2File = .ok (h, recs) :=
  ⟨⟨by decide, by decide⟩,
   rinex2_parse_never_aborts v2File v2FileHeader v2FileData (Rat.divInt 211 100)
     (by decide) (by decide)⟩

/-! ## Claim C4: store ordering after parsing -/

set_option maxRecDepth 8000 in
/-- **C4 counterexample.** Parsing `v2File` — whose records are not in
chronological order — yields the `'G'` collection with epochs
`[2002-01-01T01:00, 2002-01-01T00:00]`, which is *not* sorted by `Toc`:
no sort, stable or otherwise, is performed at the end of parsing
(reader.py 272-276 only wraps the record list in a DataFrame). -/
theorem store_not_sorted_counterexample :
    (rinex2Read v2File).map (fun p => p.2.map NavRec2.Epoch) =
      .ok [(693882000 : ℚ), 693878400] ∧
    ¬ List.Sorted (· ≤ ·) [(693882000 : ℚ), 693878400] := by
  constructor
  · decide
  · simp [List.Sorted]
    norm_num

/-- The per-block record results of the v2 data section, in file order
(the same cursor motion as `parse2Loop`, keeping failed blocks as
`none`). -/
def record2Blocks : ℕ → List Chars → List (Option NavRec2)
  | 0, _ => []
  | fuel + 1, lines =>
    match lines with
    | [] => []
    | l :: rest =>
      let line := pyRstrip l
      if line.isEmpty then record2Blocks fuel rest
      else parseRecord2 line (rest.take 7) :: record2Blocks fuel (rest.drop 7)

/-- The v2 data loop emits exactly the successfully parsed blocks in file
order. -/
theorem parse2Loop_eq_blocks (fuel : ℕ) (lines : List Chars) :
    parse2Loop fuel lines = (record2Blocks fuel lines).reduceOption := by
  induction fuel generalizing lines with
  | zero => simp [parse2Loop, record2Blocks]
  | succ n ih =>
    cases lines with
    | nil => simp [parse2Loop, record2Blocks]
    | cons l rest =>
      simp only [parse2Loop, record2Blocks]
      by_cases hb : (pyRstrip l).isEmpty
      · simp [hb, ih]
      · simp only [hb, if_false]
        cases hr : parseRecord2 (pyRstrip l) (rest.take 7) with
        | none => simp [ih, List.reduceOption_cons_of_none]
        | some r => simp [ih, List.reduceOption_cons_of_some]

/-- The per-block record results of the v3 data section, in file order
(the same cursor motion as `parse3Loop`, keeping each block's outcome). -/
def record3Blocks : ℕ → List Chars → List (Except PyErr NavRec3)
  | 0, _ => []
  | fuel + 1, lines =>
    match lines with
    | [] => []
    | l :: rest =>
      if (pyStrip l).isEmpty then record3Blocks fuel rest
      else
        match pyStrip (pySlice l 0 3) with
        | [] => [.error .indexError]
        | sysC :: _ =>
          let n := numLines3 sysC
          parseRecord3 l (rest.take (n - 1)) :: record3Blocks fuel (rest.drop (n - 1))

/-- Sequence a list of `Except` outcomes, stopping at the first error —
the effect of evaluating the blocks one after another in an unprotected
loop. -/
def exceptsSeq {α : Type} : List (Except PyErr α) → Except PyErr (List α)
  | [] => .ok []
  | x :: rest =>
    match x with
    | .error e => .error e
    | .ok r =>
      match exceptsSeq rest with
      | .error e => .error e
      | .ok rs => .ok (r :: rs)

/-- The v3 data loop is the in-order sequencing of its per-block results:
when it completes, the record list is exactly the blocks' records in file
order. -/
theorem parse3Loop_eq_blocks (fuel : ℕ) (lines : List Chars) :
    parse3Loop fuel lines = exceptsSeq (record3Blocks fuel lines) := by
  induction fuel generalizing lines with
  | zero => simp [parse3Loop, record3Blocks, exceptsSeq]
  | succ n ih =>
    cases lines with
    | nil => simp [parse3Loop, record3Blocks, exceptsSeq]
    | cons l rest =>
      simp only [parse3Loop, record3Blocks]
      by_cases hb : (pyStrip l).isEmpty
      · simp [hb, ih]
      · simp only [hb, if_false]
        cases hs : pyStrip (pySlice l 0 3) with
        | nil => simp [exceptsSeq]
        | cons sysC tl =>
          cases hr : parseRecord3 l (rest.take (numLines3 sysC - 1)) with
          | error e => simp [exceptsSeq, hr]
          | ok r =>
            simp only [exceptsSeq, hr, ih, Bool.false_eq_true, if_false]
            cases exceptsSeq (record3Blocks n (List.drop (numLines3 sysC - 1) rest)) <;> rfl

/-- The per-constellation store of the v3/v4 reader: records of one
system, in the order `records_by_system[sys].append(record)` produced
them — the flat record list filtered to that system, with no reordering
(reader.py 655-661, 692-697). -/
def rinex3Store (recs : List NavRec3) (sys : Char) : List NavRec3 :=
  recs.filter (fun r => r.satSystem == sys)

/-- **C4 (amended).** No sort is performed when parsing completes, in
either parser: the v2 `'G'` collection is exactly the list of
successfully parsed records in file order, and when the v3/v4 parse
completes each per-constellation collection is the file-order block list
filtered to that system; so a collection is sorted by `Toc` precisely
when the records as they appear in the file are already chronological. -/
theorem store_is_file_order :
    (∀ dataContent : Chars,
      rinex2ParseData dataContent =
        (record2Blocks (pySplitNL (pyStrip dataContent)).length
          (pySplitNL (pyStrip dataContent))).reduceOption) ∧
    (∀ dataContent : Chars,
      List.Sorted (· ≤ ·)
          (((record2Blocks (pySplitNL (pyStrip dataContent)).length
              (pySplitNL (pyStrip dataContent))).reduceOption).map NavRec2.Epoch) ↔
        List.Sorted (· ≤ ·) ((rinex2ParseData dataContent).map NavRec2.Epoch)) ∧
    (∀ dataContent : Chars,
      rinex3ParseData dataContent =
        exceptsSeq (record3Blocks (pySplitNL (pyStrip dataContent)).length
          (pySplitNL (pyStrip dataContent)))) ∧
    (∀ (dataContent : Chars) (sys : Char),
      (rinex3ParseData dataContent).map (fun recs => rinex3Store recs sys) =
        (exceptsSeq (record3Blocks (pySplitNL (pyStrip dataContent)).length
          (pySplitNL (pyStrip dataContent)))).map
            (fun recs => recs.filter (fun r => r.satSystem == sys))) := by
  refine ⟨fun d => parse2Loop_eq_blocks _ _, fun d => ?_, fun d => parse3Loop_eq_blocks _ _,
    fun d sys => ?_⟩
  · rw [rinex2ParseData, parse2Loop_eq_blocks]
  · rw [rinex3ParseData, parse3Loop_eq_blocks]
    rfl

/-! ## Query-layer helper lemmas -/

/-- Row selection on a one-row store whose row matches the PRN and is at
or before the query time. -/
theorem selectRow_singleton (row : QRec) (prn : ℤ) (time : ℝ)
    (hp : row.PRN = prn) (ht : row.Epoch ≤ time) :
    selectRow [row] prn time = .ok row := by
  unfold selectRow
  have h1 : List.filter (fun r => r.PRN == prn) [row] = [row] := by
    simp [List.filter_cons, hp]
  rw [h1, List.mergeSort_singleton]
  have h2 : List.filter (fun r => decide (r.Epoch ≤ time)) [row] = [row] := by
    simp [List.filter_cons, decide_eq_true ht]
  simp [h2]

/-! ## Claim C6: error taxonomy of the orbit propagator -/

/-- A record with every checked orbital parameter populated but `Toe`
missing (NaN). -/
noncomputable def toeMissingRow : QRec :=
  { PRN := 1, Epoch := 0,
    svClockBias := some 0, svClockDrift := some 0, svClockDriftRate := some 0,
    sqrt_A := some 1, e := some 0, M0 := some 0, omega := some 0, OMEGA := some 0,
    i0 := some 0, Delta_n := some 0, Cuc := some 0, Cus := some 0, Crc := some 0,
    Crs := some 0, Cic := some 0, Cis := some 0, IDOT := some 0, OMEGA_DOT := some 0,
    Toe := none, GPS_week := some 2000, GAL_week := none, BDT_week := none }

/-- **C6 counterexample.** `Toe` is *not* in the `required_params` check
of `interpolate_orbit` (utils.py 103): a record whose only missing field
is `Toe` does not fail with the "Missing or NaN value" `MissingDataError`
— instead the NaN flows into `gps_time_to_datetime` where
`timedelta(seconds=nan)` raises an unrelated conversion error
(`nanTime`), an unhandled crash. -/
theorem orbit_toe_missing_counterexample :
    interpolateOrbit [toeMissingRow] 0 'G' 1 0 = .error .nanTime := by
  have hsel := selectRow_singleton toeMissingRow 1 0 rfl (le_refl 0)
  have hcond : ¬(('G' : Char) ≠ 'G' ∧ ('G' : Char) ≠ 'J') := by simp
  have hmiss : firstMissingOrbit toeMissingRow = none := by
    simp [firstMissingOrbit, reqOrbitParams, List.find?, toeMissingRow]
  have htoe : toeMissingRow.Toe = none := rfl
  simp only [interpolateOrbit, if_neg hcond, hsel, orbitFromRow, hmiss, htoe]

/-- **C6 (amended).** The orbit propagator fails with
`UnsupportedSystemError` exactly when the requested constellation is not
G or J, and fails with `MissingDataError` whenever one of the fifteen
*checked* orbital fields (`sqrt_A, e, M0, omega, OMEGA, i0, Delta_n,
Cuc, Cus, Crc, Crs, Cic, Cis, IDOT, OMEGA_DOT`) of the selected record is
the missing sentinel — but `Toe` is not among the checked fields. -/
theorem orbit_error_paths :
    (∀ (nav : List QRec) (t : ℝ) (sys : Char) (prn nw : ℤ),
      sys ≠ 'G' → sys ≠ 'J' →
      interpolateOrbit nav t sys prn nw = .error .unsupportedSystem) ∧
    (∀ (nav : List QRec) (t : ℝ) (sys : Char) (prn nw : ℤ) (row : QRec),
      (sys = 'G' ∨ sys = 'J') →
      selectRow nav prn t = .ok row →
      (∃ p ∈ reqOrbitParams, p.2 row = none) →
      ∃ q, interpolateOrbit nav t sys prn nw = .error (.missingData q)) := by
  constructor
  · intro nav t sys prn nw hG hJ
    unfold interpolateOrbit
    rw [if_pos ⟨hG, hJ⟩]
  · intro nav t sys prn nw row hsys hsel hex
    have hnot : ¬(sys ≠ 'G' ∧ sys ≠ 'J') := by
      rcases hsys with h | h <;> simp [h]
    have hfind : (reqOrbitParams.find? (fun p => (p.2 row).isNone)).isSome := by
      rw [List.find?_isSome]
      obtain ⟨p, hp, hnone⟩ := hex
      exact ⟨p, hp, by simp [hnone]⟩
    obtain ⟨q, hq⟩ := Option.isSome_iff_exists.mp hfind
    refine ⟨q.1, ?_⟩
    simp only [interpolateOrbit, if_neg hnot, hsel, orbitFromRow, firstMissingOrbit, hq,
      Option.map_some']

/-- A record whose `sqrt_A` is the missing sentinel. -/
noncomputable def missingSqrtARow : QRec :=
  { PRN := 1, Epoch := 0,
    svClockBias := some 0, svClockDrift := some 0, svClockDriftRate := some 0,
    sqrt_A := none, e := some 0, M0 := some 0, omega := some 0, OMEGA := some 0,
    i0 := some 0, Delta_n := some 0, Cuc := some 0, Cus := some 0, Crc := some 0,
    Crs := some 0, Cic := some 0, Cis := some 0, IDOT := some 0, OMEGA_DOT := some 0,
    Toe := some 0, GPS_week := some 2000, GAL_week := none, BDT_week := none }

/-- Witness for C6 (amended): GLONASS queries are rejected as
unsupported, and a selected record with missing `sqrt_A` yields a
`MissingDataError`. -/
theorem orbit_error_paths_witness :
    (('R' : Char) ≠ 'G' ∧ ('R' : Char) ≠ 'J' ∧
      interpolateOrbit [] 0 'R' 1 0 = .error .unsupportedSystem) ∧
    ((('G' : Char) = 'G' ∨ ('G' : Char) = 'J') ∧
      selectRow [missingSqrtARow] 1 0 = .ok missingSqrtARow ∧
      (∃ p ∈ reqOrbitParams, p.2 missingSqrtARow = none) ∧
      ∃ q, interpolateOrbit [missingSqrtARow] 0 'G' 1 0 = .error (.missingData q)) :=
  ⟨⟨by decide, by decide, orbit_error_paths.1 [] 0 'R' 1 0 (by decide) (by decide)⟩,
   ⟨Or.inl rfl, selectRow_singleton _ _ _ rfl (le_refl 0),
    ⟨("sqrt_A", QRec.sqrt_A), by rw [reqOrbitParams]; exact List.mem_cons_self _ _, rfl⟩,
    orbit_error_paths.2 [missingSqrtARow] 0 'G' 1 0 missingSqrtARow (Or.inl rfl)
      (selectRow_singleton _ _ _ rfl (le_refl 0))
      ⟨("sqrt_A", QRec.sqrt_A), by rw [reqOrbitParams]; exact List.mem_cons_self _ _, rfl⟩⟩⟩

/-! ## Claim C1: query purity

`interpolate_orbit`'s week fallback reads `datetime.now()` (utils.py
130-134), so its result can depend on the wall clock. The family
`pureRow` of records takes the exactly-solvable path through the orbit
model: `e = 0` (the Kepler loop exits immediately with `E = M`), all
harmonic coefficients zero, `sqrt_A = 1`, `Toe = 0`, `OMEGA_DOT = ω_e`
(which freezes the node at `Ω' = 0`). -/

/-- Exactly-solvable orbit record: eccentricity 0, unit semi-major axis,
no perturbations, `M0 = 0`, argument of perigee `om`, inclination `i0v`,
`Delta_n = dn`, GPS week column `wk`. -/
noncomputable def pureRow (prn : ℤ) (om i0v dn : ℝ) (wk : Option ℝ) : QRec :=
  { PRN := prn, Epoch := 0,
    svClockBias := some 0, svClockDrift := some 0, svClockDriftRate := some 0,
    sqrt_A := some 1, e := some 0, M0 := some 0, omega := some om, OMEGA := some 0,
    i0 := some i0v, Delta_n := some dn, Cuc := some 0, Cus := some 0, Crc := some 0,
    Crs := some 0, Cic := some 0, Cis := some 0, IDOT := some 0,
    OMEGA_DOT := some omegaEarth, Toe := some 0, GPS_week := wk,
    GAL_week := none, BDT_week := none }

/-- With `e = 0` the fixed-point loop exits on the first iteration with
`E = M`. -/
theorem keplerE_e_zero (M : ℝ) : keplerE 0 M = M := by
  unfold keplerE keplerGo
  rw [if_pos]
  norm_num

/-- Mean anomaly of a `pureRow` query at time `t` with resolved week `w`.
-/
noncomputable def pureM (dn t : ℝ) (w : ℤ) : ℝ :=
  (Real.sqrt muEarth + dn) * (t - 604800 * w)

/-- Corrected argument of latitude of a `pureRow` query. -/
noncomputable def pureU (om dn t : ℝ) (w : ℤ) : ℝ :=
  arctan2 (Real.sin (pureM dn t w)) (Real.cos (pureM dn t w)) + om

/-- Evaluation of the orbit propagator body on a `pureRow`: it succeeds,
and the ECEF position is
`(cos u, sin u · cos i0, sin u · sin i0)` with `u = pureU`. -/
theorem orbitFromRow_pure (prn : ℤ) (om i0v dn : ℝ) (wk : Option ℝ) (t : ℝ) (nw : ℤ) :
    ∃ pos, orbitFromRow (pureRow prn om i0v dn wk) t nw = .ok pos ∧
      pos.X = Real.cos (pureU om dn t (resolveWeek (pureRow prn om i0v dn wk) nw)) ∧
      pos.Y = Real.sin (pureU om dn t (resolveWeek (pureRow prn om i0v dn wk) nw)) * Real.cos i0v ∧
      pos.Z = Real.sin (pureU om dn t (resolveWeek (pureRow prn om i0v dn wk) nw)) * Real.sin i0v := by
  have hmiss : firstMissingOrbit (pureRow prn om i0v dn wk) = none := by
    simp [firstMissingOrbit, reqOrbitParams, pureRow, List.find?]
  simp only [orbitFromRow, hmiss, pureRow, Option.getD_some]
  refine ⟨_, rfl, ?_, ?_, ?_⟩ <;>
  · simp only [keplerE_e_zero, pureU, pureM]
    norm_num [Real.sqrt_one, Real.cos_zero, Real.sin_zero, mul_comm]

/-- `arctan2 0 1 = 0`. -/
theorem arctan2_zero_one : arctan2 0 1 = 0 := by
  unfold arctan2
  rw [if_pos one_pos]
  norm_num [Real.arctan_zero]

/-- `arctan2 0 (-1) = π` (the numpy branch for the negative x-axis). -/
theorem arctan2_zero_neg_one : arctan2 0 (-1) = Real.pi := by
  unfold arctan2
  rw [if_neg (by norm_num), if_pos (by norm_num : (-1 : ℝ) < 0), if_pos (le_refl (0 : ℝ))]
  norm_num [Real.arctan_zero]

/-- The `Delta_n` that makes the corrected mean motion exactly
`π / 604800` rad/s (one half-turn per week). -/
noncomputable def c1dn : ℝ := Real.pi / 604800 - Real.sqrt muEarth

/-- The record of the C1 counterexample: no week column is populated, so
the propagator falls back to the wall-clock GPS week. -/
noncomputable def c1Row : QRec := pureRow 1 0 0 c1dn none

/-- **C1 counterexample.** Two calls to `interpolate_orbit` with the same
store, query time, constellation and PRN, differing only in the
wall-clock time at which they run (GPS week 0 vs week 1), return
different positions (`X = 1` vs `X = -1`): the query is *not* a pure
function of (store, time, identifiers). -/
theorem orbit_wall_clock_dependent :
    interpolateOrbit [c1Row] 0 'G' 1 0 ≠ interpolateOrbit [c1Row] 0 'G' 1 1 := by
  obtain ⟨p1, he1, hX1, -, -⟩ := orbitFromRow_pure 1 0 0 c1dn none 0 0
  obtain ⟨p2, he2, hX2, -, -⟩ := orbitFromRow_pure 1 0 0 c1dn none 0 1
  have hcond : ¬(('G' : Char) ≠ 'G' ∧ ('G' : Char) ≠ 'J') := by simp
  have hsel := selectRow_singleton c1Row 1 0 rfl (le_refl 0)
  have hq1 : interpolateOrbit [c1Row] 0 'G' 1 0 = .ok p1 := by
    simp only [interpolateOrbit, if_neg hcond, hsel]
    exact he1
  have hq2 : interpolateOrbit [c1Row] 0 'G' 1 1 = .ok p2 := by
    simp only [interpolateOrbit, if_neg hcond, hsel]
    exact he2
  have hwk : ∀ nw : ℤ, resolveWeek (pureRow 1 0 0 c1dn none) nw = nw := by
    intro nw
    simp [resolveWeek, pureRow]
  have hM1 : pureM c1dn 0 0 = 0 := by
    simp [pureM]
  have hM2 : pureM c1dn 0 1 = -Real.pi := by
    unfold pureM c1dn
    have h604800 : (604800 : ℝ) ≠ 0 := by norm_num
    field_simp
    ring
  have hXv1 : p1.X = 1 := by
    rw [hX1, hwk, pureU, hM1]
    rw [Real.sin_zero, Real.cos_zero, arctan2_zero_one]
    norm_num
  have hXv2 : p2.X = -1 := by
    rw [hX2, hwk, pureU, hM2]
    rw [Real.sin_neg, Real.sin_pi, Real.cos_neg, Real.cos_pi, neg_zero, arctan2_zero_neg_one]
    norm_num [Real.cos_pi]
  intro heq
  rw [hq1, hq2] at heq
  injection heq with hp
  have hx : p1.X = p2.X := by rw [hp]
  rw [hXv1, hXv2] at hx
  norm_num at hx

/-- A record has a populated week column. -/
def hasWeek (row : QRec) : Prop :=
  row.GPS_week.isSome ∨ row.GAL_week.isSome ∨ row.BDT_week.isSome

/-- When a week column is populated, the week resolution never reaches
the wall-clock fallback. -/
theorem resolveWeek_hasWeek (row : QRec) (h : hasWeek row) (n1 n2 : ℤ) :
    resolveWeek row n1 = resolveWeek row n2 := by
  unfold hasWeek at h
  cases hg : row.GPS_week <;> cases hl : row.GAL_week <;> cases hb : row.BDT_week <;>
    simp [resolveWeek, hg, hl, hb] <;> simp [hg, hl, hb] at h

/-- The orbit body depends on the wall clock only through the resolved
week. -/
theorem orbitFromRow_week_indep (row : QRec) (t : ℝ) (n1 n2 : ℤ)
    (h : resolveWeek row n1 = resolveWeek row n2) :
    orbitFromRow row t n1 = orbitFromRow row t n2 := by
  simp only [orbitFromRow, h]

/-- The clock body depends on the wall clock only through the resolved
week. -/
theorem clockFromRow_week_indep (row : QRec) (t : ℝ) (sys : Char) (n1 n2 : ℤ)
    (h : resolveWeek row n1 = resolveWeek row n2) :
    clockFromRow row t sys n1 = clockFromRow row t sys n2 := by
  simp only [clockFromRow, h]

/-- **C1 (amended).** Both query operations are pure functions of
(store, time, identifiers) **provided** the selected record carries a
populated week column (`GPS_week`/`GAL_week`/`BDT_week`): under that
condition the result does not depend on the wall-clock time of the call.
Without it, the week falls back to the current wall-clock GPS week and
the result can change between calls (see the counterexample). -/
theorem queries_pure_when_week_present (nav : List QRec) (t : ℝ) (sys : Char)
    (prn n1 n2 : ℤ)
    (hw : ∀ row, selectRow nav prn t = .ok row → hasWeek row) :
    interpolateOrbit nav t sys prn n1 = interpolateOrbit nav t sys prn n2 ∧
    computeSvClockCorrection nav t sys prn n1 = computeSvClockCorrection nav t sys prn n2 := by
  constructor
  · unfold interpolateOrbit
    by_cases hc : sys ≠ 'G' ∧ sys ≠ 'J'
    · rw [if_pos hc, if_pos hc]
    · rw [if_neg hc, if_neg hc]
      cases hsel : selectRow nav prn t with
      | error e => rfl
      | ok row =>
        exact orbitFromRow_week_indep row t n1 n2
          (resolveWeek_hasWeek row (hw row hsel) n1 n2)
  · unfold computeSvClockCorrection
    cases hsel : selectRow nav prn t with
    | error e => rfl
    | ok row =>
      exact clockFromRow_week_indep row t sys n1 n2
        (resolveWeek_hasWeek row (hw row hsel) n1 n2)

/-- Witness for C1 (amended): with `GPS_week` populated, querying at
wall-clock weeks 5 and 9 gives identical results for both operations. -/
theorem queries_pure_when_week_present_witness :
    interpolateOrbit [pureRow 1 0 0 0 (some 0)] 0 'G' 1 5 =
      interpolateOrbit [pureRow 1 0 0 0 (some 0)] 0 'G' 1 9 ∧
    computeSvClockCorrection [pureRow 1 0 0 0 (some 0)] 0 'G' 1 5 =
      computeSvClockCorrection [pureRow 1 0 0 0 (some 0)] 0 'G' 1 9 :=
  queries_pure_when_week_present [pureRow 1 0 0 0 (some 0)] 0 'G' 1 5 9
    (fun row h => by
      rw [selectRow_singleton (pureRow 1 0 0 0 (some 0)) 1 0 rfl (le_refl 0)] at h
      injection h with h
      subst h
      exact Or.inl rfl)

/-! ## Claim C7: the DOP calculator -/

/-- Row selection when the PRN filter leaves exactly one row at or before
the query time. -/
theorem selectRow_of_filter (nav : List QRec) (prn : ℤ) (time : ℝ) (row : QRec)
    (hf : nav.filter (fun r => r.PRN == prn) = [row]) (ht : row.Epoch ≤ time) :
    selectRow nav prn time = .ok row := by
  unfold selectRow
  rw [hf, List.mergeSort_singleton]
  have h2 : List.filter (fun r => decide (r.Epoch ≤ time)) [row] = [row] := by
    simp [List.filter_cons, decide_eq_true ht]
  simp [h2]

/-- **C7 (amended).** When no per-constellation frame access crashes —
i.e. on every path where the satellite enumeration and the position loop
return — `compute_dop_values` returns no result when no supported
satellite exists, when fewer than 4 satellites yield a valid position, or
when `GᵀG` is singular; otherwise it returns the five DOPs computed from
`Q = (GᵀG)⁻¹`: `GDOP = √trace Q`, `PDOP = √(Q₀₀+Q₁₁+Q₂₂)`,
`HDOP = √(Q₀₀+Q₁₁)`, `VDOP = √Q₂₂`, `TDOP = √Q₃₃`. (It is *not* true for
every store that the error outcomes are "no result, not a crash": a
column-less empty frame crashes with `KeyError` — see the
counterexample.) -/
theorem compute_dop_spec :
    (∀ (nav : List (Char × List QRec)) (recv : ℝ × ℝ × ℝ) (t : ℝ)
        (vs : Option (List (Char × ℤ))) (nw : ℤ),
      dopSatList nav vs = .ok none → computeDopValues nav recv t vs nw = .ok none) ∧
    (∀ (nav : List (Char × List QRec)) (recv : ℝ × ℝ × ℝ) (t : ℝ)
        (vs : Option (List (Char × ℤ))) (nw : ℤ) (sats : List (Char × ℤ))
        (ps : List (ℝ × ℝ × ℝ)),
      dopSatList nav vs = .ok (some sats) →
      validPositions nav t sats nw = .ok ps →
      ps.length < 4 →
      computeDopValues nav recv t vs nw = .ok none) ∧
    (∀ (nav : List (Char × List QRec)) (recv : ℝ × ℝ × ℝ) (t : ℝ)
        (vs : Option (List (Char × ℤ))) (nw : ℤ) (sats : List (Char × ℤ))
        (ps : List (ℝ × ℝ × ℝ)),
      dopSatList nav vs = .ok (some sats) →
      validPositions nav t sats nw = .ok ps →
      4 ≤ ps.length →
      (gtgOf (ps.map (gRow recv))).det = 0 →
      computeDopValues nav recv t vs nw = .ok none) ∧
    (∀ (nav : List (Char × List QRec)) (recv : ℝ × ℝ × ℝ) (t : ℝ)
        (vs : Option (List (Char × ℤ))) (nw : ℤ) (sats : List (Char × ℤ))
        (ps : List (ℝ × ℝ × ℝ)),
      dopSatList nav vs = .ok (some sats) →
      validPositions nav t sats nw = .ok ps →
      4 ≤ ps.length →
      (gtgOf (ps.map (gRow recv))).det ≠ 0 →
      computeDopValues nav recv t vs nw =
        .ok (some
          { GDOP := Real.sqrt (Matrix.trace ((gtgOf (ps.map (gRow recv)))⁻¹)),
            PDOP := Real.sqrt ((gtgOf (ps.map (gRow recv)))⁻¹ 0 0 +
              (gtgOf (ps.map (gRow recv)))⁻¹ 1 1 +
              (gtgOf (ps.map (gRow recv)))⁻¹ 2 2),
            HDOP := Real.sqrt ((gtgOf (ps.map (gRow recv)))⁻¹ 0 0 +
              (gtgOf (ps.map (gRow recv)))⁻¹ 1 1),
            VDOP := Real.sqrt ((gtgOf (ps.map (gRow recv)))⁻¹ 2 2),
            TDOP := Real.sqrt ((gtgOf (ps.map (gRow recv)))⁻¹ 3 3) })) := by
  refine ⟨?_, ?_, ?_, ?_⟩
  · intro nav recv t vs nw h
    simp only [computeDopValues, h]
  · intro nav recv t vs nw sats ps h hv hlen
    simp only [computeDopValues, h, hv]
    rw [if_pos hlen]
  · intro nav recv t vs nw sats ps h hv hlen hdet
    simp only [computeDopValues, h, hv]
    rw [if_neg (not_lt.mpr hlen), if_pos hdet]
  · intro nav recv t vs nw sats ps h hv hlen hdet
    simp only [computeDopValues, h, hv]
    rw [if_neg (not_lt.mpr hlen), if_neg hdet]

/-- Resolved week of a `pureRow` with `GPS_week = 0`. -/
theorem resolveWeek_pure_zero (prn : ℤ) (om i0v dn : ℝ) (nw : ℤ) :
    resolveWeek (pureRow prn om i0v dn (some 0)) nw = 0 := by
  simp [resolveWeek, pureRow, pyTruncR]

/-- At query time 0 with resolved week 0, the corrected argument of
latitude of a `pureRow` is its argument of perigee. -/
theorem pureU_at_zero (om dn : ℝ) : pureU om dn 0 0 = om := by
  simp [pureU, pureM, arctan2_zero_one]

/-- Evaluation of `interpolate_orbit` at time 0 on a store whose PRN
filter selects a single `pureRow` with `GPS_week = 0`. -/
theorem interp_pure (nav : List QRec) (k : ℤ) (om i0v : ℝ)
    (hf : nav.filter (fun r => r.PRN == k) = [pureRow k om i0v 0 (some 0)]) :
    ∃ pos, interpolateOrbit nav 0 'G' k 0 = .ok pos ∧
      pos.X = Real.cos om ∧ pos.Y = Real.sin om * Real.cos i0v ∧
      pos.Z = Real.sin om * Real.sin i0v := by
  obtain ⟨p, he, hX, hY, hZ⟩ := orbitFromRow_pure k om i0v 0 (some 0) 0 0
  rw [resolveWeek_pure_zero, pureU_at_zero] at hX hY hZ
  refine ⟨p, ?_, hX, hY, hZ⟩
  have hsel : selectRow nav k 0 = .ok (pureRow k om i0v 0 (some 0)) :=
    selectRow_of_filter nav k 0 _ hf (le_refl 0)
  simp only [interpolateOrbit,
    if_neg (by simp : ¬(('G' : Char) ≠ 'G' ∧ ('G' : Char) ≠ 'J')), hsel]
  exact he

/-- Geometry row for a receiver at the origin and a satellite on the unit
sphere. -/
theorem gRow_unit (s : ℝ × ℝ × ℝ) (hnorm : s.1 ^ 2 + s.2.1 ^ 2 + s.2.2 ^ 2 = 1) :
    gRow (0, 0, 0) s = ![s.1, s.2.1, s.2.2, 1] := by
  unfold gRow
  simp only [sub_zero]
  rw [hnorm, Real.sqrt_one]
  simp

/-- Four unit-sphere satellites spanning a non-degenerate geometry. -/
noncomputable def dopRowsGood : List QRec :=
  [pureRow 1 0 0 0 (some 0), pureRow 2 (Real.pi / 2) 0 0 (some 0),
   pureRow 3 (Real.pi / 2) (Real.pi / 2) 0 (some 0), pureRow 4 Real.pi 0 0 (some 0)]

noncomputable def dopNavGood : List (Char × List QRec) := [('G', dopRowsGood)]

/-- Four coplanar satellites (all in the equatorial plane of the
receiver): a singular geometry. -/
noncomputable def dopRowsSing : List QRec :=
  [pureRow 1 0 0 0 (some 0), pureRow 2 (Real.pi / 2) 0 0 (some 0),
   pureRow 3 Real.pi 0 0 (some 0), pureRow 4 (-(Real.pi / 2)) 0 0 (some 0)]

noncomputable def dopNavSing : List (Char × List QRec) := [('G', dopRowsSing)]

def dopSatsGood : List (Char × ℤ) := [('G', 1), ('G', 2), ('G', 3), ('G', 4)]

/-- Positions of the non-degenerate constellation: the four unit vectors
`(1,0,0), (0,1,0), (0,0,1), (-1,0,0)`. -/
theorem dop_good_positions :
    validPositions dopNavGood 0 dopSatsGood 0 =
      .ok [(1, 0, 0), (0, 1, 0), (0, 0, 1), (-1, 0, 0)] := by
  obtain ⟨p1, he1, hX1, hY1, hZ1⟩ :=
    interp_pure dopRowsGood 1 0 0 (by simp [dopRowsGood, pureRow, List.filter])
  obtain ⟨p2, he2, hX2, hY2, hZ2⟩ :=
    interp_pure dopRowsGood 2 (Real.pi / 2) 0 (by simp [dopRowsGood, pureRow, List.filter])
  obtain ⟨p3, he3, hX3, hY3, hZ3⟩ :=
    interp_pure dopRowsGood 3 (Real.pi / 2) (Real.pi / 2) (by simp [dopRowsGood, pureRow, List.filter])
  obtain ⟨p4, he4, hX4, hY4, hZ4⟩ :=
    interp_pure dopRowsGood 4 Real.pi 0 (by simp [dopRowsGood, pureRow, List.filter])
  have hfind : List.find? (fun p => p.1 == 'G') dopNavGood = some ('G', dopRowsGood) := by
    simp [dopNavGood, List.find?]
  have hne : dopRowsGood.isEmpty = false := by simp [dopRowsGood]
  have ha1 : dopRowsGood.any (fun r => r.PRN == (1 : ℤ)) = true := by simp [dopRowsGood, pureRow]
  have ha2 : dopRowsGood.any (fun r => r.PRN == (2 : ℤ)) = true := by simp [dopRowsGood, pureRow]
  have ha3 : dopRowsGood.any (fun r => r.PRN == (3 : ℤ)) = true := by simp [dopRowsGood, pureRow]
  have ha4 : dopRowsGood.any (fun r => r.PRN == (4 : ℤ)) = true := by simp [dopRowsGood, pureRow]
  simp only [validPositions, dopSatsGood, supportedSystems, List.mem_singleton,
    hfind, hne, ha1, ha2, ha3, ha4, he1, he2, he3, he4, if_true, if_pos rfl,
    Bool.false_eq_true, if_false, Except.map]
  rw [hX1, hY1, hZ1, hX2, hY2, hZ2, hX3, hY3, hZ3, hX4, hY4, hZ4]
  norm_num [Real.cos_pi_div_two, Real.sin_pi_div_two, Real.cos_pi, Real.sin_pi,
    Except.ok.injEq, Prod.mk.injEq]

/-- Positions of the coplanar constellation:
`(1,0,0), (0,1,0), (-1,0,0), (0,-1,0)`. -/
theorem dop_sing_positions :
    validPositions dopNavSing 0 dopSatsGood 0 =
      .ok [(1, 0, 0), (0, 1, 0), (-1, 0, 0), (0, -1, 0)] := by
  obtain ⟨p1, he1, hX1, hY1, hZ1⟩ :=
    interp_pure dopRowsSing 1 0 0 (by simp [dopRowsSing, pureRow, List.filter])
  obtain ⟨p2, he2, hX2, hY2, hZ2⟩ :=
    interp_pure dopRowsSing 2 (Real.pi / 2) 0 (by simp [dopRowsSing, pureRow, List.filter])
  obtain ⟨p3, he3, hX3, hY3, hZ3⟩ :=
    interp_pure dopRowsSing 3 Real.pi 0 (by simp [dopRowsSing, pureRow, List.filter])
  obtain ⟨p4, he4, hX4, hY4, hZ4⟩ :=
    interp_pure dopRowsSing 4 (-(Real.pi / 2)) 0 (by simp [dopRowsSing, pureRow, List.filter])
  have hfind : List.find? (fun p => p.1 == 'G') dopNavSing = some ('G', dopRowsSing) := by
    simp [dopNavSing, List.find?]
  have hne : dopRowsSing.isEmpty = false := by simp [dopRowsSing]
  have ha1 : dopRowsSing.any (fun r => r.PRN == (1 : ℤ)) = true := by simp [dopRowsSing, pureRow]
  have ha2 : dopRowsSing.any (fun r => r.PRN == (2 : ℤ)) = true := by simp [dopRowsSing, pureRow]
  have ha3 : dopRowsSing.any (fun r => r.PRN == (3 : ℤ)) = true := by simp [dopRowsSing, pureRow]
  have ha4 : dopRowsSing.any (fun r => r.PRN == (4 : ℤ)) = true := by simp [dopRowsSing, pureRow]
  simp only [validPositions, dopSatsGood, supportedSystems, List.mem_singleton,
    hfind, hne, ha1, ha2, ha3, ha4, he1, he2, he3, he4, if_true, if_pos rfl,
    Bool.false_eq_true, if_false, Except.map]
  rw [hX1, hY1, hZ1, hX2, hY2, hZ2, hX3, hY3, hZ3, hX4, hY4, hZ4]
  norm_num [Real.cos_pi_div_two, Real.sin_pi_div_two, Real.cos_pi, Real.sin_pi,
    Except.ok.injEq, Prod.mk.injEq]

/-- `GᵀG` of the non-degenerate position list. -/
theorem dop_good_gtg :
    gtgOf ((([(1, 0, 0), (0, 1, 0), (0, 0, 1), (-1, 0, 0)] : List (ℝ × ℝ × ℝ))).map (gRow (0, 0, 0))) =
      !![2, 0, 0, 0; 0, 1, 0, 1; 0, 0, 1, 1; 0, 1, 1, 4] := by
  simp only [List.map_cons, List.map_nil]
  rw [gRow_unit _ (by norm_num), gRow_unit _ (by norm_num), gRow_unit _ (by norm_num),
    gRow_unit _ (by norm_num)]
  ext i j
  fin_cases i <;> fin_cases j <;>
    simp [gtgOf, Matrix.cons_val_zero, Matrix.cons_val_one, Matrix.head_cons,
      Matrix.vecHead, Matrix.vecTail] <;> norm_num

/-- `GᵀG` of the coplanar position list (zero `a_z` row/column). -/
theorem dop_sing_gtg :
    gtgOf ((([(1, 0, 0), (0, 1, 0), (-1, 0, 0), (0, -1, 0)] : List (ℝ × ℝ × ℝ))).map (gRow (0, 0, 0))) =
      !![2, 0, 0, 0; 0, 2, 0, 0; 0, 0, 0, 0; 0, 0, 0, 4] := by
  simp only [List.map_cons, List.map_nil]
  rw [gRow_unit _ (by norm_num), gRow_unit _ (by norm_num), gRow_unit _ (by norm_num),
    gRow_unit _ (by norm_num)]
  ext i j
  fin_cases i <;> fin_cases j <;>
    simp [gtgOf, Matrix.cons_val_zero, Matrix.cons_val_one, Matrix.head_cons,
      Matrix.vecHead, Matrix.vecTail] <;> norm_num

/-- Witness for C7 (amended): an empty store ("no supported satellites"),
an explicit empty satellite list (fewer than 4 valid), the coplanar
constellation (singular `GᵀG`), and the non-degenerate constellation
(a DOP value is produced). -/
theorem compute_dop_spec_witness :
    (dopSatList [] none = .ok none ∧ computeDopValues [] (0, 0, 0) 0 none 0 = .ok none) ∧
    (dopSatList [] (some []) = .ok (some []) ∧ validPositions [] 0 [] 0 = .ok [] ∧
      ([] : List (ℝ × ℝ × ℝ)).length < 4 ∧
      computeDopValues [] (0, 0, 0) 0 (some []) 0 = .ok none) ∧
    (dopSatList dopNavSing (some dopSatsGood) = .ok (some dopSatsGood) ∧
      validPositions dopNavSing 0 dopSatsGood 0 =
        .ok [(1, 0, 0), (0, 1, 0), (-1, 0, 0), (0, -1, 0)] ∧
      4 ≤ ([(1, 0, 0), (0, 1, 0), (-1, 0, 0), (0, -1, 0)] : List (ℝ × ℝ × ℝ)).length ∧
      (gtgOf ((([(1, 0, 0), (0, 1, 0), (-1, 0, 0), (0, -1, 0)] : List (ℝ × ℝ × ℝ))).map (gRow (0, 0, 0)))).det = 0 ∧
      computeDopValues dopNavSing (0, 0, 0) 0 (some dopSatsGood) 0 = .ok none) ∧
    (dopSatList dopNavGood (some dopSatsGood) = .ok (some dopSatsGood) ∧
      validPositions dopNavGood 0 dopSatsGood 0 =
        .ok [(1, 0, 0), (0, 1, 0), (0, 0, 1), (-1, 0, 0)] ∧
      4 ≤ ([(1, 0, 0), (0, 1, 0), (0, 0, 1), (-1, 0, 0)] : List (ℝ × ℝ × ℝ)).length ∧
      (gtgOf ((([(1, 0, 0), (0, 1, 0), (0, 0, 1), (-1, 0, 0)] : List (ℝ × ℝ × ℝ))).map (gRow (0, 0, 0)))).det ≠ 0 ∧
      ∃ d, computeDopValues dopNavGood (0, 0, 0) 0 (some dopSatsGood) 0 = .ok (some d)) := by
  have hdetS : (gtgOf ((([(1, 0, 0), (0, 1, 0), (-1, 0, 0), (0, -1, 0)] : List (ℝ × ℝ × ℝ))).map (gRow (0, 0, 0)))).det = 0 := by
    rw [dop_sing_gtg]
    simp [Matrix.det_succ_row_zero, Fin.sum_univ_succ]
  have hdetG : (gtgOf ((([(1, 0, 0), (0, 1, 0), (0, 0, 1), (-1, 0, 0)] : List (ℝ × ℝ × ℝ))).map (gRow (0, 0, 0)))).det = 4 := by
    rw [dop_good_gtg]
    simp [Matrix.det_succ_row_zero, Fin.sum_univ_succ]
    norm_num
  refine ⟨⟨rfl, compute_dop_spec.1 [] (0, 0, 0) 0 none 0 rfl⟩,
    ⟨rfl, rfl, by norm_num,
      compute_dop_spec.2.1 [] (0, 0, 0) 0 (some []) 0 [] [] rfl rfl (by norm_num)⟩,
    ⟨rfl, dop_sing_positions, by norm_num, hdetS,
      compute_dop_spec.2.2.1 dopNavSing (0, 0, 0) 0 (some dopSatsGood) 0 dopSatsGood _
        rfl dop_sing_positions (by norm_num) hdetS⟩,
    ⟨rfl, dop_good_positions, by norm_num, by rw [hdetG]; norm_num,
      ⟨_, compute_dop_spec.2.2.2 dopNavGood (0, 0, 0) 0 (some dopSatsGood) 0 dopSatsGood _
        rfl dop_good_positions (by norm_num) (by rw [hdetG]; norm_num)⟩⟩⟩

/-- **C7 counterexample.** The claim promises "no result, not a crash"
for *every* store, but a v2 parse with zero successful records stores the
column-less `pd.DataFrame()` under `'G'` (first conjunct; reader.py 276),
and on such a store `compute_dop_values` raises an uncaught `KeyError`
at `df['PRN'].unique()` (example_usage.py 303, automatic satellite list)
and at `nav_data[sys]['PRN'].values` (example_usage.py 317, explicit
satellite list) — a crash, not a `None` return. -/
theorem compute_dop_crash_counterexample :
    rinex2ParseData "junk".data = [] ∧
    computeDopValues [('G', [])] (0, 0, 0) 0 none 0 = .error .keyError ∧
    computeDopValues [('G', [])] (0, 0, 0) 0 (some [('G', 1)]) 0 = .error .keyError := by
  refine ⟨by decide, ?_, ?_⟩
  · simp [computeDopValues, dopSatList, autoSats, supportedSystems]
  · simp [computeDopValues, dopSatList, validPositions, supportedSystems]

/-! ## Claim C3: the Kepler fixed-point iteration

`keplerE e M` is the loop of utils.py 151-156 (at most 10 iterations of
`E ← M + e·sin E` from `E = M`, returning the current iterate as soon as
`|E_next - E| < 1e-12`). The residual of the claim is
`|M - (E - e·sin E)| = |E_next(E) - E|`. -/

/-- Residual of Kepler's equation at the returned eccentric anomaly. -/
noncomputable def keplerResid (e M : ℝ) : ℝ :=
  |M - (keplerE e M - e * Real.sin (keplerE e M))|

/-- The bare fixed-point iterates (no early exit). -/
noncomputable def keplerSeq (e M : ℝ) : ℕ → ℝ
  | 0 => M
  | n + 1 => M + e * Real.sin (keplerSeq e M n)

/-- `|sin x| ≤ |x|`. -/
theorem abs_sin_le_abs_self (x : ℝ) : |Real.sin x| ≤ |x| := by
  rcases eq_or_ne x 0 with h | h
  · simp [h]
  · exact le_of_lt (Real.abs_sin_lt_abs h)

/-- `sin` is 1-Lipschitz. -/
theorem abs_sin_sub_sin_le (a b : ℝ) : |Real.sin a - Real.sin b| ≤ |a - b| := by
  rw [Real.sin_sub_sin, abs_mul, abs_mul]
  have h1 : |Real.sin ((a - b) / 2)| ≤ |(a - b) / 2| := abs_sin_le_abs_self _
  have h2 : |Real.cos ((a + b) / 2)| ≤ 1 := Real.abs_cos_le_one _
  have h3 : |(2 : ℝ)| = 2 := by norm_num
  calc |(2 : ℝ)| * |Real.sin ((a - b) / 2)| * |Real.cos ((a + b) / 2)|
      ≤ |(2 : ℝ)| * |(a - b) / 2| * 1 := by
        apply mul_le_mul (mul_le_mul (le_refl _) h1 (abs_nonneg _) (abs_nonneg _)) h2
          (abs_nonneg _) (by positivity)
    _ = |a - b| := by rw [abs_div, mul_one, h3]; ring

/-- Quadratic lower bound for `cos` on `[0, 1]`. -/
theorem cos_ge_one_sub_sq_div_two (x : ℝ) (h0 : 0 ≤ x) (h1 : x ≤ 1) :
    1 - x ^ 2 / 2 ≤ Real.cos x := by
  have hid : Real.cos x = 1 - 2 * Real.sin (x / 2) ^ 2 := by
    have h2 := Real.cos_two_mul' (x / 2)
    have h3 := Real.cos_sq' (x / 2)
    have h4 : (2 : ℝ) * (x / 2) = x := by ring
    rw [h4] at h2
    rw [h2, h3]
    ring
  have hs1 : Real.sin (x / 2) ≤ x / 2 := Real.sin_le (by linarith)
  have hs0 : 0 ≤ Real.sin (x / 2) :=
    Real.sin_nonneg_of_nonneg_of_le_pi (by linarith)
      (by nlinarith [Real.pi_gt_three])
  have hsq : Real.sin (x / 2) ^ 2 ≤ (x / 2) ^ 2 := by nlinarith
  rw [hid]
  nlinarith

set_option maxHeartbeats 1000000 in
/-- One step of the bare iteration on a window `[M, U] ⊆ (0, 1]` with
`M + e·U ≤ U`: the next iterate stays in the window and the next gap
shrinks by at most the factor `c = e·(1 - U²/16)·(1 - U²/2)`. -/
theorem kepler_step (e M U c a : ℝ)
    (he : 0 < e) (hM : 0 < M) (hU1 : U ≤ 1)
    (hfix : M + e * U ≤ U)
    (hc : c = e * (1 - U ^ 2 / 16) * (1 - U ^ 2 / 2))
    (haM : M ≤ a) (haU : a ≤ U) (hba : 0 < M + e * Real.sin a - a) :
    M ≤ M + e * Real.sin a ∧ M + e * Real.sin a ≤ U ∧
      c * (M + e * Real.sin a - a) ≤
        e * (Real.sin (M + e * Real.sin a) - Real.sin a) := by
  have hpi : (3 : ℝ) < Real.pi := Real.pi_gt_three
  have hsina_nonneg : 0 ≤ Real.sin a :=
    Real.sin_nonneg_of_nonneg_of_le_pi (by linarith) (by linarith)
  have hsina_le : Real.sin a ≤ a := Real.sin_le (by linarith)
  have hbM : M ≤ M + e * Real.sin a := by nlinarith
  have hbU : M + e * Real.sin a ≤ U := by nlinarith
  refine ⟨hbM, hbU, ?_⟩
  set b := M + e * Real.sin a with hbdef
  have hu0 : 0 < (b - a) / 2 := by linarith
  have huU : (b - a) / 2 ≤ U / 2 := by linarith
  have hu1 : (b - a) / 2 ≤ 1 := by linarith
  have hv0 : 0 ≤ (b + a) / 2 := by linarith
  have hvU : (b + a) / 2 ≤ U := by linarith
  have husq : ((b - a) / 2) ^ 2 ≤ U ^ 2 / 4 := by nlinarith
  have hsin_u : ((b - a) / 2) * (1 - U ^ 2 / 16) ≤ Real.sin ((b - a) / 2) := by
    have hcube := Real.sin_gt_sub_cube hu0 hu1
    nlinarith [mul_le_mul_of_nonneg_left husq hu0.le]
  have hcos_v : 1 - U ^ 2 / 2 ≤ Real.cos ((b + a) / 2) := by
    have := cos_ge_one_sub_sq_div_two ((b + a) / 2) hv0 (by linarith)
    nlinarith [sq_nonneg U]
  have hfac1 : (0 : ℝ) < 1 - U ^ 2 / 16 := by nlinarith
  have hfac2 : (0 : ℝ) < 1 - U ^ 2 / 2 := by nlinarith
  have hsin_u_pos : 0 ≤ Real.sin ((b - a) / 2) := le_trans (by positivity) hsin_u
  rw [Real.sin_sub_sin]
  calc c * (b - a) = e * (2 * ((b - a) / 2 * (1 - U ^ 2 / 16)) * (1 - U ^ 2 / 2)) := by
        rw [hc]; ring
    _ ≤ e * (2 * Real.sin ((b - a) / 2) * (1 - U ^ 2 / 2)) := by
        nlinarith [mul_le_mul_of_nonneg_left hsin_u (mul_pos he hfac2).le]
    _ ≤ e * (2 * Real.sin ((b - a) / 2) * Real.cos ((b + a) / 2)) := by
        nlinarith [mul_le_mul_of_nonneg_left hcos_v
          (mul_nonneg he.le (by linarith : (0:ℝ) ≤ 2 * Real.sin ((b - a) / 2)))]

/-- Invariant of the bare iteration: the iterates stay in `[M, U]` and
successive gaps are at least `c^k · e·sin M`. -/
theorem keplerSeq_invariant (e M U c : ℝ)
    (he : 0 < e) (hM : 0 < M) (hMU : M ≤ U) (hU1 : U ≤ 1)
    (hfix : M + e * U ≤ U)
    (hc : c = e * (1 - U ^ 2 / 16) * (1 - U ^ 2 / 2)) :
    ∀ k, M ≤ keplerSeq e M k ∧ keplerSeq e M k ≤ U ∧
      c ^ k * (e * Real.sin M) ≤ keplerSeq e M (k + 1) - keplerSeq e M k := by
  have hpi : (3 : ℝ) < Real.pi := Real.pi_gt_three
  have hsinM_pos : 0 < Real.sin M :=
    Real.sin_pos_of_pos_of_lt_pi hM (by linarith)
  have hc_pos : 0 < c := by
    rw [hc]
    have h1 : (0 : ℝ) < 1 - U ^ 2 / 16 := by nlinarith
    have h2 : (0 : ℝ) < 1 - U ^ 2 / 2 := by nlinarith
    positivity
  intro k
  induction k with
  | zero =>
    refine ⟨le_refl M, hMU, ?_⟩
    have h1 : keplerSeq e M 1 - keplerSeq e M 0 = e * Real.sin M := by
      simp [keplerSeq]
    rw [pow_zero, one_mul, h1]
  | succ k ih =>
    obtain ⟨haM, haU, hd⟩ := ih
    have hs1 : keplerSeq e M (k + 1) = M + e * Real.sin (keplerSeq e M k) := rfl
    have hs2 : keplerSeq e M (k + 2) = M + e * Real.sin (keplerSeq e M (k + 1)) := rfl
    have hba : 0 < M + e * Real.sin (keplerSeq e M k) - keplerSeq e M k := by
      rw [← hs1]
      have h0 : 0 < c ^ k * (e * Real.sin M) := by positivity
      linarith
    obtain ⟨hbM, hbU, hgap⟩ :=
      kepler_step e M U c (keplerSeq e M k) he hM hU1 hfix hc haM haU hba
    rw [← hs1] at hbM hbU hgap
    refine ⟨hbM, hbU, ?_⟩
    have hnext : keplerSeq e M (k + 2) - keplerSeq e M (k + 1) =
        e * (Real.sin (keplerSeq e M (k + 1)) - Real.sin (keplerSeq e M k)) := by
      rw [hs2, hs1]
      ring
    calc c ^ (k + 1) * (e * Real.sin M) = c * (c ^ k * (e * Real.sin M)) := by ring
      _ ≤ c * (keplerSeq e M (k + 1) - keplerSeq e M k) :=
          mul_le_mul_of_nonneg_left hd hc_pos.le
      _ ≤ e * (Real.sin (keplerSeq e M (k + 1)) - Real.sin (keplerSeq e M k)) := hgap
      _ = keplerSeq e M (k + 2) - keplerSeq e M (k + 1) := hnext.symm

/-- If the early-exit test fails for the first `n` gaps after index `k`,
the loop computes the bare iterates. -/
theorem keplerGo_eq_seq (e M : ℝ) :
    ∀ n k,
      (∀ j, j < n →
        ¬ |keplerSeq e M (k + j + 1) - keplerSeq e M (k + j)| < 1e-12) →
      keplerGo e M n (keplerSeq e M k) = keplerSeq e M (k + n) := by
  intro n
  induction n with
  | zero => intro k _; rfl
  | succ n ih =>
    intro k h
    have h0 := h 0 (Nat.succ_pos n)
    simp only [Nat.add_zero] at h0
    have hstep : keplerSeq e M (k + 1) = M + e * Real.sin (keplerSeq e M k) := rfl
    rw [hstep] at h0
    have hgo : keplerGo e M (n + 1) (keplerSeq e M k) =
        keplerGo e M n (M + e * Real.sin (keplerSeq e M k)) := by
      show (if |M + e * Real.sin (keplerSeq e M k) - keplerSeq e M k| < 1e-12
            then keplerSeq e M k
            else keplerGo e M n (M + e * Real.sin (keplerSeq e M k))) = _
      rw [if_neg h0]
    rw [hgo, ← hstep]
    have h' : ∀ j, j < n →
        ¬ |keplerSeq e M (k + 1 + j + 1) - keplerSeq e M (k + 1 + j)| < 1e-12 := by
      intro j hj
      have hx := h (j + 1) (by omega)
      have hi1 : k + (j + 1) + 1 = k + 1 + j + 1 := by omega
      have hi2 : k + (j + 1) = k + 1 + j := by omega
      rw [hi1, hi2] at hx
      exact hx
    rw [ih (k + 1) h']
    have hidx : k + 1 + n = k + (n + 1) := by omega
    rw [hidx]

/-- On a window `[M, U] ⊆ (0, 1]` that the iteration cannot leave, with a
per-step gap contraction factor `c` whose tenth power is still large, the
early exit never fires and the residual of the returned iterate is at
least the tenth gap, hence at least `1e-9`. -/
theorem kepler_lower_bound (e M U c : ℝ)
    (he : 0 < e) (hM : 0 < M) (hMU : M ≤ U) (hU1 : U ≤ 1)
    (hfix : M + e * U ≤ U)
    (hc : c = e * (1 - U ^ 2 / 16) * (1 - U ^ 2 / 2))
    (hc1 : c ≤ 1)
    (hlb12 : (1e-12 : ℝ) ≤ c ^ 10 * (e * (M - M ^ 3 / 4)))
    (hlb9 : (1e-9 : ℝ) ≤ c ^ 10 * (e * (M - M ^ 3 / 4))) :
    ¬ keplerResid e M < 1e-9 := by
  have hc0 : 0 < c := by
    rw [hc]
    have h1 : (0 : ℝ) < 1 - U ^ 2 / 16 := by nlinarith
    have h2 : (0 : ℝ) < 1 - U ^ 2 / 2 := by nlinarith
    positivity
  have hsinM_lb : M - M ^ 3 / 4 < Real.sin M :=
    Real.sin_gt_sub_cube hM (le_trans hMU hU1)
  have hM1 : M ≤ 1 := le_trans hMU hU1
  have hM2 : M ^ 2 ≤ 1 := by nlinarith
  have hM3 : M ^ 3 ≤ M := by nlinarith [mul_le_mul_of_nonneg_left hM2 hM.le]
  have hpos : 0 < e * (M - M ^ 3 / 4) := by nlinarith
  have hbound : ∀ j, j ≤ 10 →
      c ^ 10 * (e * (M - M ^ 3 / 4)) ≤ c ^ j * (e * Real.sin M) := by
    intro j hj
    have h1 : c ^ 10 ≤ c ^ j := pow_le_pow_of_le_one hc0.le hc1 hj
    have h2 : e * (M - M ^ 3 / 4) ≤ e * Real.sin M :=
      mul_le_mul_of_nonneg_left hsinM_lb.le he.le
    exact mul_le_mul h1 h2 hpos.le (pow_nonneg hc0.le j)
  have inv := keplerSeq_invariant e M U c he hM hMU hU1 hfix hc
  have hnoexit : ∀ j, j < 10 →
      ¬ |keplerSeq e M (0 + j + 1) - keplerSeq e M (0 + j)| < 1e-12 := by
    intro j hj
    simp only [Nat.zero_add]
    have hgap := (inv j).2.2
    have hb := hbound j (le_of_lt hj)
    have hgap12 : (1e-12 : ℝ) ≤ keplerSeq e M (j + 1) - keplerSeq e M j := by
      linarith
    rw [abs_of_nonneg (by linarith)]
    linarith
  have hE : keplerE e M = keplerSeq e M 10 := by
    have h := keplerGo_eq_seq e M 10 0 hnoexit
    rw [show keplerSeq e M 0 = M from rfl, Nat.zero_add] at h
    unfold keplerE
    exact h
  have h11 : keplerSeq e M 11 = M + e * Real.sin (keplerSeq e M 10) := rfl
  have hfin := (inv 10).2.2
  have hb10 := hbound 10 le_rfl
  have hge : (1e-9 : ℝ) ≤ keplerSeq e M 11 - keplerSeq e M 10 := by
    have : keplerSeq e M (10 + 1) = keplerSeq e M 11 := by norm_num
    rw [this] at hfin
    linarith
  intro hcon
  unfold keplerResid at hcon
  rw [hE] at hcon
  have heq : M - (keplerSeq e M 10 - e * Real.sin (keplerSeq e M 10)) =
      keplerSeq e M 11 - keplerSeq e M 10 := by
    rw [h11]; ring
  rw [heq, abs_of_nonneg (by linarith)] at hcon
  linarith

/-- Claim C3, counterexample: for the claimed eccentricities 0.2, 0.6 and
0.9 there are mean anomalies (M = 1/4, 1/10, 1/10 respectively) at which
the 10-iteration fixed-point loop of utils.py 151-156 returns an
eccentric anomaly whose Kepler residual `|M - (E - e*sin E)|` is NOT
below 1e-9 — the spec's accuracy claim fails for these eccentricities. -/
theorem kepler_residual_counterexample :
    ¬ keplerResid (1/5) (1/4) < 1e-9 ∧
    ¬ keplerResid (3/5) (1/10) < 1e-9 ∧
    ¬ keplerResid (9/10) (1/10) < 1e-9 := by
  refine ⟨?_, ?_, ?_⟩
  · exact kepler_lower_bound (1/5) (1/4) (5/16) (1982577/10485760)
      (by norm_num) (by norm_num) (by norm_num) (by norm_num)
      (by norm_num) (by norm_num) (by norm_num) (by norm_num) (by norm_num)
  · exact kepler_lower_bound (3/5) (1/10) (1/4) (4743/8192)
      (by norm_num) (by norm_num) (by norm_num) (by norm_num)
      (by norm_num) (by norm_num) (by norm_num) (by norm_num) (by norm_num)
  · exact kepler_lower_bound (9/10) (1/10) 1 (27/64)
      (by norm_num) (by norm_num) (by norm_num) (by norm_num)
      (by norm_num) (by norm_num) (by norm_num) (by norm_num) (by norm_num)

/-- The loop is a contraction with factor `e`: after `n` steps the
residual is at most `max (e^n · initial residual) 1e-12` (the early exit
returns a point whose residual is below the exit tolerance). -/
theorem keplerGo_resid_le (e M : ℝ) (he0 : 0 ≤ e) :
    ∀ n E, |M + e * Real.sin (keplerGo e M n E) - keplerGo e M n E| ≤
      max (e ^ n * |M + e * Real.sin E - E|) 1e-12 := by
  intro n
  induction n with
  | zero =>
    intro E
    simp only [keplerGo, pow_zero, one_mul]
    exact le_max_left _ _
  | succ n ih =>
    intro E
    by_cases hcond : |M + e * Real.sin E - E| < 1e-12
    · have hgo : keplerGo e M (n + 1) E = E := by
        show (if |M + e * Real.sin E - E| < 1e-12 then E
              else keplerGo e M n (M + e * Real.sin E)) = E
        rw [if_pos hcond]
      rw [hgo]
      exact le_max_of_le_right hcond.le
    · have hgo : keplerGo e M (n + 1) E = keplerGo e M n (M + e * Real.sin E) := by
        show (if |M + e * Real.sin E - E| < 1e-12 then E
              else keplerGo e M n (M + e * Real.sin E)) = _
        rw [if_neg hcond]
      rw [hgo]
      refine le_trans (ih (M + e * Real.sin E)) (max_le_max ?_ le_rfl)
      have hlip : |M + e * Real.sin (M + e * Real.sin E) - (M + e * Real.sin E)| ≤
          e * |M + e * Real.sin E - E| := by
        have h1 : M + e * Real.sin (M + e * Real.sin E) - (M + e * Real.sin E) =
            e * (Real.sin (M + e * Real.sin E) - Real.sin E) := by ring
        rw [h1, abs_mul, abs_of_nonneg he0]
        exact mul_le_mul_of_nonneg_left (abs_sin_sub_sin_le _ _) he0
      calc e ^ n * |M + e * Real.sin (M + e * Real.sin E) - (M + e * Real.sin E)|
          ≤ e ^ n * (e * |M + e * Real.sin E - E|) :=
            mul_le_mul_of_nonneg_left hlip (pow_nonneg he0 n)
        _ = e ^ (n + 1) * |M + e * Real.sin E - E| := by ring

/-- Claim C3 (amended): for eccentricities up to 0.05 (covering e = 0 and
e = 0.05 of the claimed set, but not 0.2, 0.6 or 0.9) the loop of
utils.py 151-156 returns, for every mean anomaly M, an eccentric anomaly
whose Kepler residual `|M - (E - e*sin E)|` is below 1e-9 (indeed at most
1e-12). -/
theorem kepler_residual_small_e (e M : ℝ) (he0 : 0 ≤ e) (he : e ≤ 1/20) :
    keplerResid e M < 1e-9 := by
  have h := keplerGo_resid_le e M he0 10 M
  have hres : keplerResid e M =
      |M + e * Real.sin (keplerE e M) - keplerE e M| := by
    unfold keplerResid
    congr 1
    ring
  have hE : keplerE e M = keplerGo e M 10 M := rfl
  have hsin1 : |Real.sin M| ≤ 1 := Real.abs_sin_le_one M
  have hrM : |M + e * Real.sin M - M| = e * |Real.sin M| := by
    rw [show M + e * Real.sin M - M = e * Real.sin M from by ring, abs_mul,
      abs_of_nonneg he0]
  have h10 : e ^ 10 * |M + e * Real.sin M - M| ≤ (1/20 : ℝ) ^ 11 := by
    rw [hrM]
    calc e ^ 10 * (e * |Real.sin M|) ≤ e ^ 10 * (e * 1) := by
          apply mul_le_mul_of_nonneg_left _ (pow_nonneg he0 10)
          exact mul_le_mul_of_nonneg_left hsin1 he0
      _ = e ^ 11 := by ring
      _ ≤ (1/20 : ℝ) ^ 11 := pow_le_pow_left he0 he 11
  have hmax : max (e ^ 10 * |M + e * Real.sin M - M|) 1e-12 ≤ (1e-12 : ℝ) := by
    apply max_le _ le_rfl
    calc e ^ 10 * |M + e * Real.sin M - M| ≤ (1/20 : ℝ) ^ 11 := h10
      _ ≤ 1e-12 := by norm_num
  rw [hres, hE]
  calc |M + e * Real.sin (keplerGo e M 10 M) - keplerGo e M 10 M|
      ≤ max (e ^ 10 * |M + e * Real.sin M - M|) 1e-12 := h
    _ ≤ 1e-12 := hmax
    _ < 1e-9 := by norm_num

/-- Witness: at e = 0, M = 1 the hypotheses hold and the residual is
below 1e-9. -/
theorem kepler_residual_small_e_witness :
    (0 : ℝ) ≤ 0 ∧ (0 : ℝ) ≤ 1/20 ∧ keplerResid 0 1 < 1e-9 :=
  ⟨le_refl 0, by norm_num, kepler_residual_small_e 0 1 (le_refl 0) (by norm_num)⟩

end PyGnssLab
